import Mathlib

/-!
# SceneManager: texture registry, material registry and transformation pipeline

A shallow embedding of `Source/SceneManager.cpp`.  Stateful member functions
become functions that take the state and return the new state.

* `float` values are taken from an arbitrary field `R` (exact arithmetic; the
  rounding of IEEE floats is not modelled).  Trigonometric functions are a
  parameter (`ScalarMath R`), instantiated with the real cosine and sine in the
  theorems about concrete angles.
* The OpenGL context is reduced to what the texture registry can observe: the
  texture names that are allocated, the current 2D binding, and the names that
  were passed to `glDeleteTextures`.
* What the outside world answers during a call is an argument of the call: the
  image `stbi_load` decoded (or `none` for a null pointer) and the texture name
  that `glGenTextures` wrote.
-/

set_option maxRecDepth 100000

namespace SceneManagerModel

/-! ## Machine integers -/

/-- Conversion of an unsigned value to a 32-bit `int`, as `static_cast<int>`
does on the targets of this program (wrap-around modulo `2^32`). -/
def static_cast_int (n : Nat) : Int :=
  (((n + 2 ^ 31) % 2 ^ 32 : Nat) : Int) - 2 ^ 31

/-! ## Associative containers -/

/-- The `std::unordered_map<std::string, V>` members: a finite partial function
from tags to values.  `find` is application; `none` is `end()`. -/
abbrev TagMap (V : Type) := String → Option V

/-- The empty map, also the result of `clear()`. -/
def TagMap.clear {V : Type} : TagMap V := fun _ => none

/-- The assignment `m[key] = value`: inserts the key or overwrites its value. -/
def TagMap.assign {V : Type} (m : TagMap V) (key : String) (value : V) : TagMap V :=
  fun k => if k = key then some value else m k

/-! ## Image decoder and OpenGL context -/

/-- What `stbi_load` reports about a decoded file.  The pixel buffer itself is
only handed on to `glTexImage2D` and is not modelled. -/
structure Image where
  width : Int
  height : Int
  colorChannels : Int
deriving DecidableEq, Repr

/-- The part of the OpenGL context the texture registry interacts with. -/
structure GLContext where
  /-- Texture names generated by `glGenTextures` and not deleted since. -/
  textures : List Nat
  /-- The texture bound to `GL_TEXTURE_2D`. -/
  boundTexture2D : Nat
  /-- Every name passed to `glDeleteTextures`, most recent first. -/
  deleteCalls : List Nat
deriving DecidableEq, Repr

/-- The call `glGenTextures(1, &id)`, where `name` is the name the context hands
out. -/
def glGenTextures (gl : GLContext) (name : Nat) : GLContext :=
  { gl with textures := name :: gl.textures }

/-- The call `glBindTexture(GL_TEXTURE_2D, id)`. -/
def glBindTexture (gl : GLContext) (id : Nat) : GLContext :=
  { gl with boundTexture2D := id }

/-- The call `glDeleteTextures(1, &id)`: the name is released, and a deleted
texture that is bound reverts the binding to zero. -/
def glDeleteTextures (gl : GLContext) (id : Nat) : GLContext :=
  { textures := gl.textures.filter (fun t => t != id)
    boundTexture2D := if gl.boundTexture2D = id then 0 else gl.boundTexture2D
    deleteCalls := id :: gl.deleteCalls }

/-! ## Vectors and matrices (glm) -/

namespace glm

/-- The type `glm::vec2`. -/
structure vec2 (R : Type) where
  x : R
  y : R
deriving DecidableEq, Repr

/-- The type `glm::vec3`. -/
structure vec3 (R : Type) where
  x : R
  y : R
  z : R
deriving DecidableEq, Repr

/-- The type `glm::vec4`. -/
structure vec4 (R : Type) where
  x : R
  y : R
  z : R
  w : R
deriving DecidableEq, Repr

/-- The type `glm::mat4`: four columns, as glm stores it (`m[i]` is column `i`). -/
structure mat4 (R : Type) where
  c0 : vec4 R
  c1 : vec4 R
  c2 : vec4 R
  c3 : vec4 R
deriving DecidableEq, Repr

end glm

open glm

/-! ## Registry records and the shader manager -/

/-- The record `TEXTURE_INFO`: an OpenGL texture name (`GLuint`) and its tag.  It
is declared in `SceneManager.h`; the fields are those `SceneManager.cpp` uses. -/
structure TEXTURE_INFO where
  ID : Nat
  tag : String
deriving DecidableEq, Repr

/-- The record `OBJECT_MATERIAL`.  It is declared in `SceneManager.h`; the fields
are those `SceneManager.cpp` uses. -/
structure OBJECT_MATERIAL (R : Type) where
  ambientColor : vec3 R
  ambientStrength : R
  diffuseColor : vec3 R
  specularColor : vec3 R
  shininess : R
  tag : String
deriving DecidableEq, Repr

/-- A value written to a shader uniform, one constructor per kind of write. -/
inductive UniformValue (R : Type) where
  | mat4Value (m : mat4 R)
  | vec4Value (v : vec4 R)
  | vec3Value (v : vec3 R)
  | vec2Value (v : vec2 R)
  | floatValue (x : R)
  | intValue (i : Int)
  | boolValue (b : Bool)
deriving DecidableEq, Repr

/-- Modelled from the spec: the class `ShaderManager` (its source is not part of
the sources at hand).  The shading stage "accepts named uniform writes of kinds
{matrix4, vec4, vec3, vec2, float, int, bool}"; the model keeps every write,
most recent first, and the value of a uniform is the last one written. -/
structure ShaderManager (R : Type) where
  writes : List (String × UniformValue R)
deriving DecidableEq, Repr

/-- The current value of a uniform: the most recent write to that name. -/
def ShaderManager.uniform {R : Type} (sh : ShaderManager R) (name : String) :
    Option (UniformValue R) :=
  (sh.writes.find? (fun w => w.1 == name)).map Prod.snd

/-- Modelled from the spec: a named uniform write of the shader manager. -/
def ShaderManager.setValue {R : Type} (sh : ShaderManager R) (name : String)
    (v : UniformValue R) : ShaderManager R :=
  { writes := (name, v) :: sh.writes }

/-- The member `setMat4Value`. -/
def ShaderManager.setMat4Value {R : Type} (sh : ShaderManager R) (name : String)
    (m : mat4 R) : ShaderManager R :=
  sh.setValue name (.mat4Value m)

/-- The member `setIntValue`. -/
def ShaderManager.setIntValue {R : Type} (sh : ShaderManager R) (name : String)
    (i : Int) : ShaderManager R :=
  sh.setValue name (.intValue i)

/-- The member `setSampler2DValue`: the sampler selector is an integer uniform. -/
def ShaderManager.setSampler2DValue {R : Type} (sh : ShaderManager R) (name : String)
    (slot : Int) : ShaderManager R :=
  sh.setValue name (.intValue slot)

/-- The names of the uniforms, from the anonymous namespace of the source. -/
def g_ModelName : String := "model"
/-- The uniform name of the object colour. -/
def g_ColorValueName : String := "objectColor"
/-- The uniform name of the sampler selector. -/
def g_TextureValueName : String := "objectTexture"
/-- The uniform name of the texture-enable flag. -/
def g_UseTextureName : String := "bUseTexture"
/-- The uniform name of the lighting-enable flag. -/
def g_UseLightingName : String := "bUseLighting"

/-- The state of a `SceneManager` object: the data members `SceneManager.cpp` reads
and writes (the mesh provider `m_basicMeshes` holds no state of the registries).
`m_pShaderManager` is `none` for a null pointer. -/
structure SceneManager (R : Type) where
  m_pShaderManager : Option (ShaderManager R)
  m_textures : List TEXTURE_INFO
  m_textureSlotLookup : TagMap Int
  m_objectMaterials : List (OBJECT_MATERIAL R)
  m_materialLookup : TagMap (OBJECT_MATERIAL R)

/-- The constructor `SceneManager(pShaderManager)`: empty containers. -/
def SceneManager.new {R : Type} (pShaderManager : Option (ShaderManager R)) :
    SceneManager R :=
  { m_pShaderManager := pShaderManager
    m_textures := []
    m_textureSlotLookup := TagMap.clear
    m_objectMaterials := []
    m_materialLookup := TagMap.clear }

/-! ## Texture registry -/

/-- The member `CreateGLTexture(filename, tag)`.  `image` is the result of
`stbi_load(filename, ...)` and `textureID` the name `glGenTextures` writes.
Returns the `bool` result, the OpenGL context and the object afterwards. -/
def CreateGLTexture {R : Type} (gl : GLContext) (sm : SceneManager R)
    (image : Option Image) (textureID : Nat) (tag : String) :
    Bool × GLContext × SceneManager R :=
  match image with
  | none => (false, gl, sm)
  | some img =>
    let gl1 := glBindTexture (glGenTextures gl textureID) textureID
    if img.colorChannels = 3 ∨ img.colorChannels = 4 then
      -- glTexImage2D, glGenerateMipmap, stbi_image_free, then unbind
      let gl2 := glBindTexture gl1 0
      let texInfo : TEXTURE_INFO := { ID := textureID, tag := tag }
      let slotIndex : Int := static_cast_int sm.m_textures.length
      if slotIndex ≥ 16 then
        (false, glDeleteTextures gl2 textureID, sm)
      else
        (true, gl2,
          { sm with
            m_textures := sm.m_textures ++ [texInfo]
            m_textureSlotLookup := sm.m_textureSlotLookup.assign tag slotIndex })
    else
      -- stbi_image_free, unbind, return false
      (false, glBindTexture gl1 0, sm)

/-- The member `DestroyGLTextures()`. -/
def DestroyGLTextures {R : Type} (gl : GLContext) (sm : SceneManager R) :
    GLContext × SceneManager R :=
  let gl1 := sm.m_textures.foldl
    (fun g tex => if tex.ID ≠ 0 then glDeleteTextures g tex.ID else g) gl
  (gl1, { sm with m_textures := [], m_textureSlotLookup := TagMap.clear })

/-- The member `FindTextureID(tag)`. -/
def FindTextureID {R : Type} (sm : SceneManager R) (tag : String) : Int :=
  match sm.m_textureSlotLookup tag with
  | none => -1
  | some slot =>
    if slot < 0 ∨ slot ≥ static_cast_int sm.m_textures.length then
      -1
    else
      match sm.m_textures.get? slot.toNat with
      | some tex => static_cast_int tex.ID
      | none => -1

/-- The member `FindTextureSlot(tag)`. -/
def FindTextureSlot {R : Type} (sm : SceneManager R) (tag : String) : Int :=
  match sm.m_textureSlotLookup tag with
  | none => -1
  | some slot => slot

/-! ## Sequences of registry calls -/

/-- One call of `CreateGLTexture` with the answers of the outside world: the
decoded image (or `none`) and the texture name OpenGL generates. -/
structure LoadCall where
  image : Option Image
  textureID : Nat
  tag : String
deriving DecidableEq, Repr

/-- The state after a sequence of `CreateGLTexture` calls. -/
def loadAll {R : Type} (s : GLContext × SceneManager R) :
    List LoadCall → GLContext × SceneManager R
  | [] => s
  | c :: cs => loadAll (CreateGLTexture s.1 s.2 c.image c.textureID c.tag).2 cs

/-- The `bool` results of a sequence of `CreateGLTexture` calls, in call order. -/
def loadResults {R : Type} (s : GLContext × SceneManager R) : List LoadCall → List Bool
  | [] => []
  | c :: cs =>
    (CreateGLTexture s.1 s.2 c.image c.textureID c.tag).1 ::
      loadResults (CreateGLTexture s.1 s.2 c.image c.textureID c.tag).2 cs

/-- A registry holding sixteen textures, named 1 to 16 and tagged "t0" to "t15",
built by sixteen successful loads into an empty registry. -/
def fullRegistry : GLContext × SceneManager ℚ :=
  loadAll (⟨[], 0, []⟩, SceneManager.new none)
    (["t0", "t1", "t2", "t3", "t4", "t5", "t6", "t7", "t8", "t9", "t10", "t11", "t12",
      "t13", "t14", "t15"].enum.map fun p => ⟨some ⟨4, 4, 3⟩, p.1 + 1, p.2⟩)

/-- A call on the texture registry: `CreateGLTexture`, with the answers of the
outside world, or `DestroyGLTextures`. -/
inductive RegistryCall where
  | create (image : Option Image) (textureID : Nat) (tag : String)
  | destroy
deriving DecidableEq, Repr

/-- The state after one registry call. -/
def RegistryCall.run {R : Type} (s : GLContext × SceneManager R) :
    RegistryCall → GLContext × SceneManager R
  | .create image textureID tag => (CreateGLTexture s.1 s.2 image textureID tag).2
  | .destroy => DestroyGLTextures s.1 s.2

/-- The state after a sequence of registry calls. -/
def runCalls {R : Type} (s : GLContext × SceneManager R) :
    List RegistryCall → GLContext × SceneManager R
  | [] => s
  | c :: cs => runCalls (c.run s) cs

/-- Whether, along a sequence of registry calls, no `CreateGLTexture` call succeeds
with a tag that an entry of the registry carries at the time of the call. -/
def loadsDistinctTags {R : Type} (s : GLContext × SceneManager R) :
    List RegistryCall → Bool
  | [] => true
  | .create image textureID tag :: cs =>
    (decide (tag ∉ s.2.m_textures.map TEXTURE_INFO.tag) ||
        !(CreateGLTexture s.1 s.2 image textureID tag).1) &&
      loadsDistinctTags (RegistryCall.run s (.create image textureID tag)) cs
  | .destroy :: cs => loadsDistinctTags (RegistryCall.run s .destroy) cs

/-- Whether, along a sequence of `CreateGLTexture` calls, every call is made with a
tag other than `tag` or fails. -/
def loadsAvoidTag {R : Type} (tag : String) (s : GLContext × SceneManager R) :
    List LoadCall → Bool
  | [] => true
  | c :: cs =>
    (decide (c.tag ≠ tag) || !(CreateGLTexture s.1 s.2 c.image c.textureID c.tag).1) &&
      loadsAvoidTag tag (CreateGLTexture s.1 s.2 c.image c.textureID c.tag).2 cs

/-! ## glm: the functions the transformation pipeline calls -/

/-- The scalar functions of the C library that glm calls, and the constant pi. -/
structure ScalarMath (R : Type) where
  cos : R → R
  sin : R → R
  inversesqrt : R → R
  pi : R

namespace glm

variable {R : Type} [Field R]

/-- Componentwise sum of two `vec4`. -/
def vec4.add (a b : vec4 R) : vec4 R :=
  ⟨a.x + b.x, a.y + b.y, a.z + b.z, a.w + b.w⟩

/-- The product `v * s` of a `vec4` and a scalar. -/
def vec4.scale (v : vec4 R) (s : R) : vec4 R :=
  ⟨v.x * s, v.y * s, v.z * s, v.w * s⟩

/-- The product `v * s` of a `vec3` and a scalar. -/
def vec3.scale (v : vec3 R) (s : R) : vec3 R :=
  ⟨v.x * s, v.y * s, v.z * s⟩

instance : Add (vec4 R) := ⟨vec4.add⟩
instance : HMul (vec4 R) R (vec4 R) := ⟨vec4.scale⟩
instance : HMul (vec3 R) R (vec3 R) := ⟨vec3.scale⟩

/-- The constructor `mat4(1.0f)`: the identity matrix. -/
def mat4.identity : mat4 R :=
  ⟨⟨1, 0, 0, 0⟩, ⟨0, 1, 0, 0⟩, ⟨0, 0, 1, 0⟩, ⟨0, 0, 0, 1⟩⟩

/-- The product `m * v` of a matrix and a column vector. -/
def mat4.mulVec (m : mat4 R) (v : vec4 R) : vec4 R :=
  m.c0 * v.x + m.c1 * v.y + m.c2 * v.z + m.c3 * v.w

/-- The product `m1 * m2` of two matrices: column `j` of the result is `m1`
applied to column `j` of `m2`. -/
def mat4.mul (m1 m2 : mat4 R) : mat4 R :=
  ⟨m1.c0 * m2.c0.x + m1.c1 * m2.c0.y + m1.c2 * m2.c0.z + m1.c3 * m2.c0.w,
   m1.c0 * m2.c1.x + m1.c1 * m2.c1.y + m1.c2 * m2.c1.z + m1.c3 * m2.c1.w,
   m1.c0 * m2.c2.x + m1.c1 * m2.c2.y + m1.c2 * m2.c2.z + m1.c3 * m2.c2.w,
   m1.c0 * m2.c3.x + m1.c1 * m2.c3.y + m1.c2 * m2.c3.z + m1.c3 * m2.c3.w⟩

instance : Mul (mat4 R) := ⟨mat4.mul⟩

/-- The function `glm::radians`. -/
def radians (F : ScalarMath R) (degrees : R) : R :=
  degrees * (F.pi / 180)

/-- The function `glm::dot` on `vec3`. -/
def dot (a b : vec3 R) : R :=
  a.x * b.x + a.y * b.y + a.z * b.z

/-- The function `glm::normalize` on `vec3`. -/
def normalize (F : ScalarMath R) (v : vec3 R) : vec3 R :=
  v * F.inversesqrt (dot v v)

/-- The function `glm::scale(v)`, which is `scale(mat4(1), v)`. -/
def scale (v : vec3 R) : mat4 R :=
  let m : mat4 R := mat4.identity
  ⟨m.c0 * v.x, m.c1 * v.y, m.c2 * v.z, m.c3⟩

/-- The function `glm::translate(v)`, which is `translate(mat4(1), v)`. -/
def translate (v : vec3 R) : mat4 R :=
  let m : mat4 R := mat4.identity
  ⟨m.c0, m.c1, m.c2, m.c0 * v.x + m.c1 * v.y + m.c2 * v.z + m.c3⟩

/-- The function `glm::rotate(angle, v)`, which is `rotate(mat4(1), angle, v)`. -/
def rotate (F : ScalarMath R) (angle : R) (v : vec3 R) : mat4 R :=
  let m : mat4 R := mat4.identity
  let c := F.cos angle
  let s := F.sin angle
  let axis := normalize F v
  let temp : vec3 R := ⟨(1 - c) * axis.x, (1 - c) * axis.y, (1 - c) * axis.z⟩
  let r00 := c + temp.x * axis.x
  let r01 := temp.x * axis.y + s * axis.z
  let r02 := temp.x * axis.z - s * axis.y
  let r10 := temp.y * axis.x - s * axis.z
  let r11 := c + temp.y * axis.y
  let r12 := temp.y * axis.z + s * axis.x
  let r20 := temp.z * axis.x + s * axis.y
  let r21 := temp.z * axis.y - s * axis.x
  let r22 := c + temp.z * axis.z
  ⟨m.c0 * r00 + m.c1 * r01 + m.c2 * r02,
   m.c0 * r10 + m.c1 * r11 + m.c2 * r12,
   m.c0 * r20 + m.c1 * r21 + m.c2 * r22,
   m.c3⟩

end glm

/-! ## Transformation pipeline and shading state -/

section Pipeline

variable {R : Type} [Field R]

/-- The local `modelView` of `SetTransformations` after the assignment
`modelView = translation * rotationX * rotationY * rotationZ * scale`. -/
def SetTransformations.modelView (F : ScalarMath R) (scaleXYZ : vec3 R)
    (XrotationDegrees YrotationDegrees ZrotationDegrees : R) (positionXYZ : vec3 R) :
    mat4 R :=
  let scale := glm.scale scaleXYZ
  let rotationX := glm.rotate F (glm.radians F XrotationDegrees) ⟨1, 0, 0⟩
  let rotationY := glm.rotate F (glm.radians F YrotationDegrees) ⟨0, 1, 0⟩
  let rotationZ := glm.rotate F (glm.radians F ZrotationDegrees) ⟨0, 0, 1⟩
  let translation := glm.translate positionXYZ
  translation * rotationX * rotationY * rotationZ * scale

/-- The member `SetTransformations`. -/
def SetTransformations (F : ScalarMath R) (sm : SceneManager R) (scaleXYZ : vec3 R)
    (XrotationDegrees YrotationDegrees ZrotationDegrees : R) (positionXYZ : vec3 R) :
    SceneManager R :=
  let modelView := SetTransformations.modelView F scaleXYZ
    XrotationDegrees YrotationDegrees ZrotationDegrees positionXYZ
  match sm.m_pShaderManager with
  | some sh => { sm with m_pShaderManager := some (sh.setMat4Value g_ModelName modelView) }
  | none => sm

/-- The member `SetShaderTexture(textureTag)`. -/
def SetShaderTexture (sm : SceneManager R) (textureTag : String) : SceneManager R :=
  match sm.m_pShaderManager with
  | none => sm
  | some sh =>
    let textureSlot := FindTextureSlot sm textureTag
    if textureSlot ≥ 0 then
      { sm with
        m_pShaderManager :=
          some ((sh.setIntValue g_UseTextureName 1).setSampler2DValue
            g_TextureValueName textureSlot) }
    else
      { sm with m_pShaderManager := some (sh.setIntValue g_UseTextureName 0) }

/-! ## Material registry -/

/-- The member `FindMaterial(tag, material)`: the `bool` result and the value of
the output parameter `material` afterwards. -/
def FindMaterial (sm : SceneManager R) (tag : String) (material : OBJECT_MATERIAL R) :
    Bool × OBJECT_MATERIAL R :=
  match sm.m_materialLookup tag with
  | some found => (true, found)
  | none =>
    match sm.m_objectMaterials.find? (fun mat => mat.tag == tag) with
    | some mat => (true, mat)
    | none => (false, material)

/-- The member `DefineObjectMaterials()`. -/
def DefineObjectMaterials (sm : SceneManager R) : SceneManager R :=
  let goldMaterial : OBJECT_MATERIAL R :=
    { ambientColor := ⟨0.2, 0.2, 0.1⟩, ambientStrength := 0.4
      diffuseColor := ⟨0.3, 0.3, 0.2⟩, specularColor := ⟨0.6, 0.5, 0.4⟩
      shininess := 22.0, tag := "gold" }
  let cementMaterial : OBJECT_MATERIAL R :=
    { ambientColor := ⟨0.2, 0.2, 0.2⟩, ambientStrength := 0.2
      diffuseColor := ⟨0.5, 0.5, 0.5⟩, specularColor := ⟨0.4, 0.4, 0.4⟩
      shininess := 0.5, tag := "cement" }
  let woodMaterial : OBJECT_MATERIAL R :=
    { ambientColor := ⟨0.4, 0.3, 0.1⟩, ambientStrength := 0.2
      diffuseColor := ⟨0.3, 0.2, 0.1⟩, specularColor := ⟨0.1, 0.1, 0.1⟩
      shininess := 0.3, tag := "wood" }
  let tileMaterial : OBJECT_MATERIAL R :=
    { ambientColor := ⟨0.2, 0.3, 0.4⟩, ambientStrength := 0.3
      diffuseColor := ⟨0.3, 0.2, 0.1⟩, specularColor := ⟨0.4, 0.5, 0.6⟩
      shininess := 25.0, tag := "tile" }
  let glassMaterial : OBJECT_MATERIAL R :=
    { ambientColor := ⟨0.4, 0.4, 0.4⟩, ambientStrength := 0.3
      diffuseColor := ⟨0.3, 0.3, 0.3⟩, specularColor := ⟨0.6, 0.6, 0.6⟩
      shininess := 85.0, tag := "glass" }
  let clayMaterial : OBJECT_MATERIAL R :=
    { ambientColor := ⟨0.2, 0.2, 0.3⟩, ambientStrength := 0.3
      diffuseColor := ⟨0.4, 0.4, 0.5⟩, specularColor := ⟨0.2, 0.2, 0.4⟩
      shininess := 0.5, tag := "clay" }
  let ceramicMaterial : OBJECT_MATERIAL R :=
    { ambientColor := ⟨0.8, 0.8, 0.9⟩, ambientStrength := 0.4
      diffuseColor := ⟨0.7, 0.7, 0.8⟩, specularColor := ⟨0.9, 0.9, 1.0⟩
      shininess := 32.0, tag := "ceramic" }
  let m_objectMaterials : List (OBJECT_MATERIAL R) :=
    ((((((([] ++ [goldMaterial]) ++ [cementMaterial]) ++ [woodMaterial]) ++ [tileMaterial])
      ++ [glassMaterial]) ++ [clayMaterial]) ++ [ceramicMaterial])
  { sm with
    m_objectMaterials := m_objectMaterials
    m_materialLookup :=
      m_objectMaterials.foldl (fun m mat => m.assign mat.tag mat) TagMap.clear }

end Pipeline

/-! ## The transformation as the specification words it

Textbook definitions, independent of glm, to compare `SetTransformations` with. -/

namespace Spec

variable {R : Type} [Field R]

/-- The homogeneous matrix of the translation by `t`. -/
def Translation (t : vec3 R) : mat4 R :=
  ⟨⟨1, 0, 0, 0⟩, ⟨0, 1, 0, 0⟩, ⟨0, 0, 1, 0⟩, ⟨t.x, t.y, t.z, 1⟩⟩

/-- The homogeneous matrix of the rotation about the X axis by `a` radians. -/
def RotationX (F : ScalarMath R) (a : R) : mat4 R :=
  ⟨⟨1, 0, 0, 0⟩, ⟨0, F.cos a, F.sin a, 0⟩, ⟨0, -F.sin a, F.cos a, 0⟩, ⟨0, 0, 0, 1⟩⟩

/-- The homogeneous matrix of the rotation about the Y axis by `a` radians. -/
def RotationY (F : ScalarMath R) (a : R) : mat4 R :=
  ⟨⟨F.cos a, 0, -F.sin a, 0⟩, ⟨0, 1, 0, 0⟩, ⟨F.sin a, 0, F.cos a, 0⟩, ⟨0, 0, 0, 1⟩⟩

/-- The homogeneous matrix of the rotation about the Z axis by `a` radians. -/
def RotationZ (F : ScalarMath R) (a : R) : mat4 R :=
  ⟨⟨F.cos a, F.sin a, 0, 0⟩, ⟨-F.sin a, F.cos a, 0, 0⟩, ⟨0, 0, 1, 0⟩, ⟨0, 0, 0, 1⟩⟩

/-- The homogeneous matrix of the componentwise scaling by `s`. -/
def Scale (s : vec3 R) : mat4 R :=
  ⟨⟨s.x, 0, 0, 0⟩, ⟨0, s.y, 0, 0⟩, ⟨0, 0, s.z, 0⟩, ⟨0, 0, 0, 1⟩⟩

/-- The point `p` scaled componentwise by `s`. -/
def scaleBy (s p : vec3 R) : vec3 R :=
  ⟨s.x * p.x, s.y * p.y, s.z * p.z⟩

/-- The point `p` rotated about the X axis by `a` radians. -/
def rotateX (F : ScalarMath R) (a : R) (p : vec3 R) : vec3 R :=
  ⟨p.x, F.cos a * p.y - F.sin a * p.z, F.sin a * p.y + F.cos a * p.z⟩

/-- The point `p` rotated about the Y axis by `a` radians. -/
def rotateY (F : ScalarMath R) (a : R) (p : vec3 R) : vec3 R :=
  ⟨F.cos a * p.x + F.sin a * p.z, p.y, F.cos a * p.z - F.sin a * p.x⟩

/-- The point `p` rotated about the Z axis by `a` radians. -/
def rotateZ (F : ScalarMath R) (a : R) (p : vec3 R) : vec3 R :=
  ⟨F.cos a * p.x - F.sin a * p.y, F.sin a * p.x + F.cos a * p.y, p.z⟩

/-- The point `p` moved by `t`. -/
def translateBy (t p : vec3 R) : vec3 R :=
  ⟨t.x + p.x, t.y + p.y, t.z + p.z⟩

/-- The column vector `(p, w)`. -/
def homogeneous (p : vec3 R) (w : R) : vec4 R :=
  ⟨p.x, p.y, p.z, w⟩

end Spec

/-- The matrix held by the uniform `model` of the bound shader manager, if any. -/
def uploadedModel {R : Type} (sm : SceneManager R) : Option (mat4 R) :=
  match sm.m_pShaderManager with
  | none => none
  | some sh =>
    match sh.uniform g_ModelName with
    | some (.mat4Value m) => some m
    | _ => none

/-! ## Further shader manager members, shading state and lights -/

/-- The member `setVec4Value`. -/
def ShaderManager.setVec4Value {R : Type} (sh : ShaderManager R) (name : String)
    (v : vec4 R) : ShaderManager R :=
  sh.setValue name (.vec4Value v)

/-- The member `setVec3Value`, also for its overload taking three floats. -/
def ShaderManager.setVec3Value {R : Type} (sh : ShaderManager R) (name : String)
    (v : vec3 R) : ShaderManager R :=
  sh.setValue name (.vec3Value v)

/-- The member `setVec2Value`. -/
def ShaderManager.setVec2Value {R : Type} (sh : ShaderManager R) (name : String)
    (v : vec2 R) : ShaderManager R :=
  sh.setValue name (.vec2Value v)

/-- The member `setFloatValue`. -/
def ShaderManager.setFloatValue {R : Type} (sh : ShaderManager R) (name : String)
    (x : R) : ShaderManager R :=
  sh.setValue name (.floatValue x)

/-- The member `setBoolValue`. -/
def ShaderManager.setBoolValue {R : Type} (sh : ShaderManager R) (name : String)
    (b : Bool) : ShaderManager R :=
  sh.setValue name (.boolValue b)

/-- How many writes a uniform has received. -/
def ShaderManager.writeCount {R : Type} (sh : ShaderManager R) (name : String) : Nat :=
  (sh.writes.filter (fun w => w.1 == name)).length

section ShadingSetters

variable {R : Type} [Field R]

/-- The local `OBJECT_MATERIAL material;` of `SetShaderMaterial` before
`FindMaterial` fills it.  Its field values are never read. -/
def OBJECT_MATERIAL.uninitialized : OBJECT_MATERIAL R :=
  { ambientColor := ⟨0, 0, 0⟩, ambientStrength := 0, diffuseColor := ⟨0, 0, 0⟩
    specularColor := ⟨0, 0, 0⟩, shininess := 0, tag := "" }

/-- The member `SetShaderColor`. -/
def SetShaderColor (sm : SceneManager R) (redColorValue greenColorValue blueColorValue
    alphaValue : R) : SceneManager R :=
  let currentColor : vec4 R := ⟨redColorValue, greenColorValue, blueColorValue, alphaValue⟩
  match sm.m_pShaderManager with
  | some sh =>
    { sm with
      m_pShaderManager :=
        some ((sh.setIntValue g_UseTextureName 0).setVec4Value g_ColorValueName currentColor) }
  | none => sm

/-- The member `SetTextureUVScale`. -/
def SetTextureUVScale (sm : SceneManager R) (u v : R) : SceneManager R :=
  match sm.m_pShaderManager with
  | some sh => { sm with m_pShaderManager := some (sh.setVec2Value "UVscale" ⟨u, v⟩) }
  | none => sm

/-- The member `SetShaderMaterial(materialTag)`. -/
def SetShaderMaterial (sm : SceneManager R) (materialTag : String) : SceneManager R :=
  match sm.m_objectMaterials, sm.m_pShaderManager with
  | [], _ => sm
  | _ :: _, none => sm
  | _ :: _, some sh =>
    match FindMaterial sm materialTag OBJECT_MATERIAL.uninitialized with
    | (true, material) =>
      { sm with
        m_pShaderManager :=
          some (((((sh.setVec3Value "material.ambientColor" material.ambientColor).setFloatValue
            "material.ambientStrength" material.ambientStrength).setVec3Value
            "material.diffuseColor" material.diffuseColor).setVec3Value
            "material.specularColor" material.specularColor).setFloatValue
            "material.shininess" material.shininess) }
    | (false, _) => sm

/-- The member `SetupSceneLights()`. -/
def SetupSceneLights (sm : SceneManager R) : SceneManager R :=
  match sm.m_pShaderManager with
  | none => sm
  | some sh =>
    let sh1 := sh.setVec3Value "lightSources[0].position" ⟨0.0, 1.5, 0.0⟩
    let sh2 := sh1.setVec3Value "lightSources[0].diffuseColor" ⟨0.4, 0.3, 0.2⟩
    let sh3 := sh2.setVec3Value "lightSources[0].specularColor" ⟨0.0, 0.0, 0.0⟩
    let sh4 := sh3.setFloatValue "lightSources[0].focalStrength" 64.0
    let sh5 := sh4.setFloatValue "lightSources[0].specularIntensity" 0.1
    let sh6 := sh5.setVec3Value "lightSources[1].position" ⟨0.0, 1.2, 2.0⟩
    let sh7 := sh6.setVec3Value "lightSources[1].diffuseColor" ⟨0.3, 0.3, 0.3⟩
    let sh8 := sh7.setVec3Value "lightSources[1].specularColor" ⟨0.0, 0.0, 0.0⟩
    let sh9 := sh8.setFloatValue "lightSources[1].focalStrength" 90.0
    let sh10 := sh9.setFloatValue "lightSources[1].specularIntensity" 0.05
    { sm with m_pShaderManager := some (sh10.setBoolValue g_UseLightingName true) }

end ShadingSetters

/-! ## Mesh provider, scene preparation and the render sequence -/

/-- The shapes of the mesh provider `ShapeMeshes`. -/
inductive MeshKind where
  | box
  | plane
  | cylinder
  | cone
  | prism
  | pyramid4
  | sphere
  | taperedCylinder
  | torus
deriving DecidableEq, Repr

/-- One `Draw<Shape>Mesh()` call.  A draw uses the uniform values the shader program
holds at that moment; the model records the state of the shader manager with the
call, so that the order of uniform writes and draws can be read off. -/
structure DrawCall (R : Type) where
  mesh : MeshKind
  shading : Option (ShaderManager R)
deriving DecidableEq, Repr

/-- Modelled from the spec: the class `ShapeMeshes` behind `m_basicMeshes` (its
source is not part of the sources at hand): "one-time `load<Shape>Mesh()` calls for
a fixed shape catalog" and "corresponding `draw<Shape>Mesh()` calls that assume the
currently bound shading/transform state".  Both lists are most recent first. -/
structure ShapeMeshes (R : Type) where
  loaded : List MeshKind
  drawCalls : List (DrawCall R)
deriving DecidableEq, Repr

/-- Modelled from the spec: a `Load<Shape>Mesh()` call. -/
def ShapeMeshes.load {R : Type} (meshes : ShapeMeshes R) (kind : MeshKind) : ShapeMeshes R :=
  { meshes with loaded := kind :: meshes.loaded }

/-- Modelled from the spec: a `Draw<Shape>Mesh()` call, issued while the shader
manager is in state `shading`. -/
def ShapeMeshes.draw {R : Type} (meshes : ShapeMeshes R) (kind : MeshKind)
    (shading : Option (ShaderManager R)) : ShapeMeshes R :=
  { meshes with drawCalls := ⟨kind, shading⟩ :: meshes.drawCalls }

/-- The member `BindGLTextures()`: entry `i` is bound to texture unit `i`.  The
result is the list of `(unit, texture name)` bindings it issues, in call order. -/
def BindGLTextures {R : Type} (sm : SceneManager R) : List (Nat × Nat) :=
  sm.m_textures.enum.map fun p => (p.1, p.2.ID)

section Scene

variable {R : Type} [Field R]

/-- The member `LoadSceneTextures()`.  `stbi_load` is what the decoder returns for
each path and `glGen k` the name `glGenTextures` writes in the `k`-th load.  Returns
the OpenGL context, the unit bindings issued by `BindGLTextures`, and the object. -/
def LoadSceneTextures (gl : GLContext) (sm : SceneManager R)
    (stbi_load : String → Option Image) (glGen : Nat → Nat) :
    GLContext × List (Nat × Nat) × SceneManager R :=
  let r1 := CreateGLTexture gl sm
    (stbi_load "../../Utilities/textures/wood.jpg") (glGen 0) "wood"
  let r2 := CreateGLTexture r1.2.1 r1.2.2
    (stbi_load "../../Utilities/textures/greencup.png") (glGen 1) "Mug"
  let r3 := CreateGLTexture r2.2.1 r2.2.2
    (stbi_load "../../Utilities/textures/light.jpg") (glGen 2) "light"
  let r4 := CreateGLTexture r3.2.1 r3.2.2
    (stbi_load "../../Utilities/textures/stainedglass.jpg") (glGen 3) "glass"
  let r5 := CreateGLTexture r4.2.1 r4.2.2
    (stbi_load "../../Utilities/textures/gold-seamless-texture.jpg") (glGen 4) "gold"
  (r5.2.1, BindGLTextures r5.2.2, r5.2.2)

/-- The member `PrepareScene()`.  Returns the OpenGL context, the unit bindings, the
mesh provider and the object. -/
def PrepareScene (gl : GLContext) (meshes : ShapeMeshes R) (sm : SceneManager R)
    (stbi_load : String → Option Image) (glGen : Nat → Nat) :
    GLContext × List (Nat × Nat) × ShapeMeshes R × SceneManager R :=
  let loaded := LoadSceneTextures gl sm stbi_load glGen
  let sm1 := SetupSceneLights (DefineObjectMaterials loaded.2.2)
  let meshes1 := ((((((((meshes.load .box).load .plane).load .cylinder).load .cone).load
    .prism).load .pyramid4).load .sphere).load .taperedCylinder).load .torus
  (loaded.1, loaded.2.1, meshes1, sm1)

/-- The member `RenderScene()`.  Returns the mesh provider and the object. -/
def RenderScene (F : ScalarMath R) (meshes : ShapeMeshes R) (sm : SceneManager R) :
    ShapeMeshes R × SceneManager R :=
  -- the table
  let sm := SetTransformations F sm ⟨12.0, 0.3, 12.0⟩ 0.0 0.0 0.0 ⟨0.0, -3.0, 0.0⟩
  let sm := SetShaderMaterial sm "wood"
  let sm := SetShaderTexture sm "wood"
  let meshes := meshes.draw .cylinder sm.m_pShaderManager
  -- the lamp base
  let sm := SetTransformations F sm ⟨0.8, 1.5, 0.8⟩ 0.0 0.0 0.0 ⟨0.0, -1.95, -1.0⟩
  let sm := SetShaderMaterial sm "gold"
  let sm := SetShaderTexture sm "gold"
  let meshes := meshes.draw .cylinder sm.m_pShaderManager
  -- the lamp shade
  let sm := SetTransformations F sm ⟨1.2, 1.2, 1.2⟩ 0.0 0.0 0.0 ⟨0.0, -0.25, -1.0⟩
  let sm := SetShaderMaterial sm "glass"
  let sm := SetShaderTexture sm "light"
  let meshes := meshes.draw .cone sm.m_pShaderManager
  -- the coffee mug
  let sm := SetTransformations F sm ⟨0.6, 0.7, 0.6⟩ 0.0 30.0 0.0 ⟨1.5, -2.85, -1.2⟩
  let sm := SetShaderMaterial sm "ceramic"
  let sm := SetShaderTexture sm "Mug"
  let meshes := meshes.draw .cylinder sm.m_pShaderManager
  -- the book
  let sm := SetTransformations F sm ⟨1.5, 0.2, 1.0⟩ 0.0 0.0 0.0 ⟨-1.2, -2.7, -1.5⟩
  let sm := SetShaderColor sm 0.5 0.2 0.1 1.0
  let meshes := meshes.draw .box sm.m_pShaderManager
  -- the laptop base
  let sm := SetTransformations F sm ⟨2.5, 0.2, 1.8⟩ 0.0 0.0 0.0 ⟨-0.5, -2.7, 0.5⟩
  let sm := SetShaderColor sm 0.2 0.2 0.2 1.0
  let meshes := meshes.draw .box sm.m_pShaderManager
  -- the laptop screen
  let sm := SetTransformations F sm ⟨2.5, 1.5, 0.2⟩ (-60.0) 0.0 0.0 ⟨-0.5, -1.3, 1.0⟩
  let sm := SetShaderColor sm 0.3 0.3 0.3 1.0
  let meshes := meshes.draw .plane sm.m_pShaderManager
  (meshes, sm)

end Scene

/-- Consistency of the texture registry: at most 16 entries, and every tag of the
tag-to-slot map is mapped to the position of an entry that carries that tag. -/
def RegistryConsistent {R : Type} (sm : SceneManager R) : Prop :=
  sm.m_textures.length ≤ 16 ∧
  ∀ (tag : String) (i : Int), sm.m_textureSlotLookup tag = some i →
    0 ≤ i ∧ i < sm.m_textures.length ∧
    ∃ tex : TEXTURE_INFO, sm.m_textures.get? i.toNat = some tex ∧ tex.tag = tag

/-! ## The render sequence as the specification words it

A list of draw instructions, each executed as: set the transform, set the shading
(material and texture, or flat colour), issue the mesh draw. -/

namespace Spec

variable {R : Type} [Field R]

/-- The shading of a draw instruction, with the material and the texture slot its
tags resolve to. -/
inductive Shading (R : Type) where
  | textured (material : OBJECT_MATERIAL R) (slot : Int)
  | flat (color : vec4 R)

/-- A draw instruction: mesh, model matrix and shading. -/
structure DrawInstruction (R : Type) where
  mesh : MeshKind
  model : mat4 R
  shading : Shading R

/-- Whether the instruction is shaded by material and texture. -/
def DrawInstruction.isTextured (i : DrawInstruction R) : Bool :=
  match i.shading with
  | .textured _ _ => true
  | .flat _ => false

/-- The uniform writes of a shading resolution, in the order they are made. -/
def shadingWrites : Shading R → List (String × UniformValue R)
  | .textured material slot =>
    [("material.ambientColor", .vec3Value material.ambientColor),
     ("material.ambientStrength", .floatValue material.ambientStrength),
     ("material.diffuseColor", .vec3Value material.diffuseColor),
     ("material.specularColor", .vec3Value material.specularColor),
     ("material.shininess", .floatValue material.shininess),
     ("bUseTexture", .intValue 1),
     ("objectTexture", .intValue slot)]
  | .flat color =>
    [("bUseTexture", .intValue 0),
     ("objectColor", .vec4Value color)]

/-- The shader manager after the transform and the shading of an instruction: first
the model matrix is written, then the shading values. -/
def shaderAfter (sh : ShaderManager R) (i : DrawInstruction R) : ShaderManager R :=
  ⟨(shadingWrites i.shading).reverse ++ ("model", .mat4Value i.model) :: sh.writes⟩

/-- Executing a list of instructions: for each one the transform, then the shading,
then the draw, which sees both. -/
def execute (meshes : ShapeMeshes R) (sh : ShaderManager R) :
    List (DrawInstruction R) → ShapeMeshes R × ShaderManager R
  | [] => (meshes, sh)
  | i :: rest => execute (meshes.draw i.mesh (some (shaderAfter sh i))) (shaderAfter sh i) rest

/-- The seven instructions of the scene: table, lamp base, lamp shade, coffee mug,
book, laptop base, laptop screen; given the materials and slots the tags of the first
four resolve to. -/
def renderSequence (F : ScalarMath R) (wood gold glass ceramic : OBJECT_MATERIAL R)
    (woodSlot goldSlot lightSlot mugSlot : Int) : List (DrawInstruction R) :=
  [⟨.cylinder, SetTransformations.modelView F ⟨12.0, 0.3, 12.0⟩ 0.0 0.0 0.0 ⟨0.0, -3.0, 0.0⟩,
      .textured wood woodSlot⟩,
   ⟨.cylinder, SetTransformations.modelView F ⟨0.8, 1.5, 0.8⟩ 0.0 0.0 0.0 ⟨0.0, -1.95, -1.0⟩,
      .textured gold goldSlot⟩,
   ⟨.cone, SetTransformations.modelView F ⟨1.2, 1.2, 1.2⟩ 0.0 0.0 0.0 ⟨0.0, -0.25, -1.0⟩,
      .textured glass lightSlot⟩,
   ⟨.cylinder, SetTransformations.modelView F ⟨0.6, 0.7, 0.6⟩ 0.0 30.0 0.0 ⟨1.5, -2.85, -1.2⟩,
      .textured ceramic mugSlot⟩,
   ⟨.box, SetTransformations.modelView F ⟨1.5, 0.2, 1.0⟩ 0.0 0.0 0.0 ⟨-1.2, -2.7, -1.5⟩,
      .flat ⟨0.5, 0.2, 0.1, 1.0⟩⟩,
   ⟨.box, SetTransformations.modelView F ⟨2.5, 0.2, 1.8⟩ 0.0 0.0 0.0 ⟨-0.5, -2.7, 0.5⟩,
      .flat ⟨0.2, 0.2, 0.2, 1.0⟩⟩,
   ⟨.plane, SetTransformations.modelView F ⟨2.5, 1.5, 0.2⟩ (-60.0) 0.0 0.0 ⟨-0.5, -1.3, 1.0⟩,
      .flat ⟨0.3, 0.3, 0.3, 1.0⟩⟩]

end Spec

/-! ## Unfolding lemmas for the glm operations -/

section GlmLemmas

variable {R : Type} [Field R]

theorem vec4_add_mk (a b c d e f g h : R) :
    (⟨a, b, c, d⟩ : vec4 R) + ⟨e, f, g, h⟩ = ⟨a + e, b + f, c + g, d + h⟩ := rfl

theorem vec4_mul_mk (a b c d s : R) :
    (⟨a, b, c, d⟩ : vec4 R) * s = ⟨a * s, b * s, c * s, d * s⟩ := rfl

theorem vec3_mul_mk (a b c s : R) :
    (⟨a, b, c⟩ : vec3 R) * s = ⟨a * s, b * s, c * s⟩ := rfl

theorem mat4_mul_mk (a b c d e f g h : vec4 R) :
    (⟨a, b, c, d⟩ : mat4 R) * ⟨e, f, g, h⟩ =
      ⟨a * e.x + b * e.y + c * e.z + d * e.w,
       a * f.x + b * f.y + c * f.z + d * f.w,
       a * g.x + b * g.y + c * g.z + d * g.w,
       a * h.x + b * h.y + c * h.z + d * h.w⟩ := rfl

theorem mat4_mulVec_mk (a b c d : vec4 R) (v : vec4 R) :
    (⟨a, b, c, d⟩ : mat4 R).mulVec v = a * v.x + b * v.y + c * v.z + d * v.w := rfl

end GlmLemmas

/-! ## Texture registry: loading -/

section TextureRegistry

variable {R : Type}

theorem static_cast_int_of_lt (n : Nat) (h : n < 2 ^ 31) : static_cast_int n = n := by
  unfold static_cast_int
  omega

theorem CreateGLTexture_ok (gl : GLContext) (sm : SceneManager R) (img : Image)
    (textureID : Nat) (tag : String) (hlen : sm.m_textures.length < 16)
    (hch : img.colorChannels = 3 ∨ img.colorChannels = 4) :
    CreateGLTexture gl sm (some img) textureID tag =
      (true, glBindTexture (glBindTexture (glGenTextures gl textureID) textureID) 0,
        { sm with
          m_textures := sm.m_textures ++ [⟨textureID, tag⟩]
          m_textureSlotLookup :=
            sm.m_textureSlotLookup.assign tag (sm.m_textures.length : Int) }) := by
  have hcast : static_cast_int sm.m_textures.length = sm.m_textures.length :=
    static_cast_int_of_lt _ (by omega)
  have hnot : ¬ ((sm.m_textures.length : Int) ≥ 16) := by omega
  simp only [CreateGLTexture, hch, hcast, if_true, if_neg hnot]

theorem CreateGLTexture_length (gl : GLContext) (sm : SceneManager R) (image : Option Image)
    (textureID : Nat) (tag : String) :
    (CreateGLTexture gl sm image textureID tag).2.2.m_textures.length =
      sm.m_textures.length + (if (CreateGLTexture gl sm image textureID tag).1 then 1 else 0) := by
  unfold CreateGLTexture
  cases image with
  | none => simp
  | some img =>
    by_cases hch : img.colorChannels = 3 ∨ img.colorChannels = 4
    · by_cases hfull : static_cast_int sm.m_textures.length ≥ 16
      · simp [hch, hfull]
      · simp [hch, hfull]
    · simp [hch]

theorem loadAll_length (s : GLContext × SceneManager R) (calls : List LoadCall) :
    (loadAll s calls).2.m_textures.length =
      s.2.m_textures.length + (loadResults s calls).count true := by
  induction calls generalizing s with
  | nil => simp [loadAll, loadResults]
  | cons c cs ih =>
    rw [loadAll, loadResults, ih, CreateGLTexture_length, List.count_cons]
    cases (CreateGLTexture s.1 s.2 c.image c.textureID c.tag).1
    · simp
    · simp
      omega

/-- C1: when the registry holds fewer than 16 entries and the image decodes with
3 or 4 channels, `CreateGLTexture` succeeds; afterwards `FindTextureSlot(tag)` is the
number of entries held before the call, which is the position of no earlier entry;
the entry at that position carries the generated texture name and the tag, and
`FindTextureID(tag)` is that name (as an `int`).  If the state before the call was
reached from an empty registry by a sequence of loads, the slot is the number of
loads of that sequence that succeeded: the k-th successful load gets slot k-1. -/
theorem CreateGLTexture_assigns_next_slot (gl : GLContext) (sm : SceneManager R)
    (img : Image) (textureID : Nat) (tag : String)
    (hlen : sm.m_textures.length < 16)
    (hch : img.colorChannels = 3 ∨ img.colorChannels = 4) :
    (CreateGLTexture gl sm (some img) textureID tag).1 = true ∧
    FindTextureSlot (CreateGLTexture gl sm (some img) textureID tag).2.2 tag
      = (sm.m_textures.length : Int) ∧
    (∀ i : Nat, i < sm.m_textures.length →
      (i : Int) ≠ FindTextureSlot (CreateGLTexture gl sm (some img) textureID tag).2.2 tag) ∧
    (CreateGLTexture gl sm (some img) textureID tag).2.2.m_textures.get? sm.m_textures.length
      = some ⟨textureID, tag⟩ ∧
    FindTextureID (CreateGLTexture gl sm (some img) textureID tag).2.2 tag
      = static_cast_int textureID ∧
    (textureID < 2 ^ 31 →
      FindTextureID (CreateGLTexture gl sm (some img) textureID tag).2.2 tag = (textureID : Int)) ∧
    (∀ (gl0 : GLContext) (sh : Option (ShaderManager R)) (calls : List LoadCall),
      (gl, sm) = loadAll (gl0, SceneManager.new sh) calls →
      FindTextureSlot (CreateGLTexture gl sm (some img) textureID tag).2.2 tag
        = ((loadResults (gl0, SceneManager.new sh) calls).count true : Nat)) := by
  have hslot : FindTextureSlot (CreateGLTexture gl sm (some img) textureID tag).2.2 tag
      = (sm.m_textures.length : Int) := by
    rw [CreateGLTexture_ok gl sm img textureID tag hlen hch]
    simp [FindTextureSlot, TagMap.assign]
  have hid : FindTextureID (CreateGLTexture gl sm (some img) textureID tag).2.2 tag
      = static_cast_int textureID := by
    rw [CreateGLTexture_ok gl sm img textureID tag hlen hch]
    have hcast : static_cast_int (sm.m_textures.length + 1) = sm.m_textures.length + 1 := by
      rw [static_cast_int_of_lt _ (by omega)]
      simp
    simp [FindTextureID, TagMap.assign, hcast]
  refine ⟨?_, hslot, ?_, ?_, hid, ?_, ?_⟩
  · rw [CreateGLTexture_ok gl sm img textureID tag hlen hch]
  · intro i hi
    rw [hslot]
    omega
  · rw [CreateGLTexture_ok gl sm img textureID tag hlen hch]
    simp
  · intro hsmall
    rw [hid, static_cast_int_of_lt _ hsmall]
  · intro gl0 sh calls hreach
    rw [hslot]
    have hl := loadAll_length (gl0, SceneManager.new sh) calls
    rw [← hreach] at hl
    have h0 : (SceneManager.new sh : SceneManager R).m_textures.length = 0 := rfl
    rw [h0, Nat.zero_add] at hl
    rw [hl]

/-- Witness for C1: the second load into a registry that holds one texture. -/
theorem CreateGLTexture_assigns_next_slot_witness :
    (CreateGLTexture (R := ℚ) ⟨[1], 0, []⟩
        (loadAll (⟨[], 0, []⟩, SceneManager.new none) [⟨some ⟨8, 8, 3⟩, 1, "wood"⟩]).2
        (some ⟨8, 8, 4⟩) 2 "Mug").1 = true ∧
    FindTextureSlot (CreateGLTexture (R := ℚ) ⟨[1], 0, []⟩
        (loadAll (⟨[], 0, []⟩, SceneManager.new none) [⟨some ⟨8, 8, 3⟩, 1, "wood"⟩]).2
        (some ⟨8, 8, 4⟩) 2 "Mug").2.2 "Mug" = 1 ∧
    FindTextureID (CreateGLTexture (R := ℚ) ⟨[1], 0, []⟩
        (loadAll (⟨[], 0, []⟩, SceneManager.new none) [⟨some ⟨8, 8, 3⟩, 1, "wood"⟩]).2
        (some ⟨8, 8, 4⟩) 2 "Mug").2.2 "Mug" = 2 :=
  have h := CreateGLTexture_assigns_next_slot (R := ℚ) ⟨[1], 0, []⟩
    (loadAll (⟨[], 0, []⟩, SceneManager.new none) [⟨some ⟨8, 8, 3⟩, 1, "wood"⟩]).2
    ⟨8, 8, 4⟩ 2 "Mug" (by decide) (by decide)
  ⟨h.1, h.2.1, h.2.2.2.2.2.1 (by decide)⟩

/-- C2: when the registry already holds 16 entries, `CreateGLTexture` returns
failure for every decoder outcome, generated name and tag, and the object is left
exactly as it was, so both lookups answer every tag as before. -/
theorem CreateGLTexture_full_registry (gl : GLContext) (sm : SceneManager R)
    (image : Option Image) (textureID : Nat) (tag : String)
    (hfull : sm.m_textures.length = 16) :
    (CreateGLTexture gl sm image textureID tag).1 = false ∧
    (CreateGLTexture gl sm image textureID tag).2.2 = sm ∧
    (CreateGLTexture gl sm image textureID tag).2.2.m_textures = sm.m_textures ∧
    (CreateGLTexture gl sm image textureID tag).2.2.m_textureSlotLookup
      = sm.m_textureSlotLookup ∧
    (∀ t : String,
      FindTextureSlot (CreateGLTexture gl sm image textureID tag).2.2 t = FindTextureSlot sm t ∧
      FindTextureID (CreateGLTexture gl sm image textureID tag).2.2 t = FindTextureID sm t) := by
  have hcast : static_cast_int sm.m_textures.length = 16 := by
    rw [static_cast_int_of_lt _ (by omega), hfull]
    rfl
  have hsm : (CreateGLTexture gl sm image textureID tag).2.2 = sm := by
    unfold CreateGLTexture
    cases image with
    | none => rfl
    | some img =>
      by_cases hch : img.colorChannels = 3 ∨ img.colorChannels = 4
      · simp [hch, hcast]
      · simp [hch]
  have hres : (CreateGLTexture gl sm image textureID tag).1 = false := by
    unfold CreateGLTexture
    cases image with
    | none => rfl
    | some img =>
      by_cases hch : img.colorChannels = 3 ∨ img.colorChannels = 4
      · simp [hch, hcast]
      · simp [hch]
  refine ⟨hres, hsm, by rw [hsm], by rw [hsm], ?_⟩
  intro t
  rw [hsm]
  exact ⟨rfl, rfl⟩

/-- Witness for C2: a seventeenth load into the registry of sixteen textures. -/
theorem CreateGLTexture_full_registry_witness :
    fullRegistry.2.m_textures.length = 16 ∧
    (CreateGLTexture fullRegistry.1 fullRegistry.2 (some ⟨4, 4, 3⟩) 17 "t16").1 = false ∧
    (CreateGLTexture fullRegistry.1 fullRegistry.2 (some ⟨4, 4, 3⟩) 17 "t16").2.2
      = fullRegistry.2 :=
  have h := CreateGLTexture_full_registry fullRegistry.1 fullRegistry.2
    (some ⟨4, 4, 3⟩) 17 "t16" (by decide)
  ⟨by decide, h.1, h.2.1⟩

end TextureRegistry

/-! ## Material registry -/

section MaterialRegistry

variable {R : Type} [Field R]

/-- C3: after `DefineObjectMaterials`, `FindMaterial` succeeds for each of the seven
catalog tags and returns the five values (and the tag) assigned to it in
`DefineObjectMaterials`; for every other tag it returns `false` and the output
material keeps the value it had. -/
theorem FindMaterial_after_DefineObjectMaterials (sm : SceneManager R)
    (material : OBJECT_MATERIAL R) :
    FindMaterial (DefineObjectMaterials sm) "gold" material =
      (true, ⟨⟨0.2, 0.2, 0.1⟩, 0.4, ⟨0.3, 0.3, 0.2⟩, ⟨0.6, 0.5, 0.4⟩, 22.0, "gold"⟩) ∧
    FindMaterial (DefineObjectMaterials sm) "cement" material =
      (true, ⟨⟨0.2, 0.2, 0.2⟩, 0.2, ⟨0.5, 0.5, 0.5⟩, ⟨0.4, 0.4, 0.4⟩, 0.5, "cement"⟩) ∧
    FindMaterial (DefineObjectMaterials sm) "wood" material =
      (true, ⟨⟨0.4, 0.3, 0.1⟩, 0.2, ⟨0.3, 0.2, 0.1⟩, ⟨0.1, 0.1, 0.1⟩, 0.3, "wood"⟩) ∧
    FindMaterial (DefineObjectMaterials sm) "tile" material =
      (true, ⟨⟨0.2, 0.3, 0.4⟩, 0.3, ⟨0.3, 0.2, 0.1⟩, ⟨0.4, 0.5, 0.6⟩, 25.0, "tile"⟩) ∧
    FindMaterial (DefineObjectMaterials sm) "glass" material =
      (true, ⟨⟨0.4, 0.4, 0.4⟩, 0.3, ⟨0.3, 0.3, 0.3⟩, ⟨0.6, 0.6, 0.6⟩, 85.0, "glass"⟩) ∧
    FindMaterial (DefineObjectMaterials sm) "clay" material =
      (true, ⟨⟨0.2, 0.2, 0.3⟩, 0.3, ⟨0.4, 0.4, 0.5⟩, ⟨0.2, 0.2, 0.4⟩, 0.5, "clay"⟩) ∧
    FindMaterial (DefineObjectMaterials sm) "ceramic" material =
      (true, ⟨⟨0.8, 0.8, 0.9⟩, 0.4, ⟨0.7, 0.7, 0.8⟩, ⟨0.9, 0.9, 1.0⟩, 32.0, "ceramic"⟩) ∧
    (∀ tag : String,
      tag ∉ ["gold", "cement", "wood", "tile", "glass", "clay", "ceramic"] →
      FindMaterial (DefineObjectMaterials sm) tag material = (false, material)) := by
  refine ⟨?_, ?_, ?_, ?_, ?_, ?_, ?_, ?_⟩
  · simp [FindMaterial, DefineObjectMaterials, TagMap.assign, TagMap.clear]
  · simp [FindMaterial, DefineObjectMaterials, TagMap.assign, TagMap.clear]
  · simp [FindMaterial, DefineObjectMaterials, TagMap.assign, TagMap.clear]
  · simp [FindMaterial, DefineObjectMaterials, TagMap.assign, TagMap.clear]
  · simp [FindMaterial, DefineObjectMaterials, TagMap.assign, TagMap.clear]
  · simp [FindMaterial, DefineObjectMaterials, TagMap.assign, TagMap.clear]
  · simp [FindMaterial, DefineObjectMaterials, TagMap.assign, TagMap.clear]
  · intro tag htag
    simp only [List.mem_cons, List.mem_singleton, List.not_mem_nil, or_false, not_or] at htag
    obtain ⟨h1, h2, h3, h4, h5, h6, h7⟩ := htag
    have e1 : ("gold" = tag) = False := eq_false (fun h => h1 h.symm)
    have e2 : ("cement" = tag) = False := eq_false (fun h => h2 h.symm)
    have e3 : ("wood" = tag) = False := eq_false (fun h => h3 h.symm)
    have e4 : ("tile" = tag) = False := eq_false (fun h => h4 h.symm)
    have e5 : ("glass" = tag) = False := eq_false (fun h => h5 h.symm)
    have e6 : ("clay" = tag) = False := eq_false (fun h => h6 h.symm)
    have e7 : ("ceramic" = tag) = False := eq_false (fun h => h7 h.symm)
    simp [FindMaterial, DefineObjectMaterials, TagMap.assign, TagMap.clear,
      h1, h2, h3, h4, h5, h6, h7, e1, e2, e3, e4, e5, e6, e7]

end MaterialRegistry

/-! ## Transformation pipeline -/

section Transformations

variable {R : Type} [Field R]

theorem glm_scale_eq (s : vec3 R) : glm.scale s = Spec.Scale s := by
  simp [glm.scale, Spec.Scale, glm.mat4.identity, vec4_mul_mk]

theorem glm_translate_eq (t : vec3 R) : glm.translate t = Spec.Translation t := by
  simp [glm.translate, Spec.Translation, glm.mat4.identity, vec4_mul_mk, vec4_add_mk]

theorem glm_rotate_X_eq (F : ScalarMath R) (hnorm : F.inversesqrt 1 = 1) (a : R) :
    glm.rotate F a ⟨1, 0, 0⟩ = Spec.RotationX F a := by
  simp [glm.rotate, Spec.RotationX, glm.normalize, glm.dot, glm.mat4.identity, vec4_mul_mk,
    vec4_add_mk, vec3_mul_mk, hnorm]

theorem glm_rotate_Y_eq (F : ScalarMath R) (hnorm : F.inversesqrt 1 = 1) (a : R) :
    glm.rotate F a ⟨0, 1, 0⟩ = Spec.RotationY F a := by
  simp [glm.rotate, Spec.RotationY, glm.normalize, glm.dot, glm.mat4.identity, vec4_mul_mk,
    vec4_add_mk, vec3_mul_mk, hnorm]

theorem glm_rotate_Z_eq (F : ScalarMath R) (hnorm : F.inversesqrt 1 = 1) (a : R) :
    glm.rotate F a ⟨0, 0, 1⟩ = Spec.RotationZ F a := by
  simp [glm.rotate, Spec.RotationZ, glm.normalize, glm.dot, glm.mat4.identity, vec4_mul_mk,
    vec4_add_mk, vec3_mul_mk, hnorm]

theorem modelView_eq_product (F : ScalarMath R) (hnorm : F.inversesqrt 1 = 1)
    (s : vec3 R) (ax ay az : R) (t : vec3 R) :
    SetTransformations.modelView F s ax ay az t =
      Spec.Translation t * Spec.RotationX F (ax * (F.pi / 180)) *
        Spec.RotationY F (ay * (F.pi / 180)) * Spec.RotationZ F (az * (F.pi / 180)) *
        Spec.Scale s := by
  simp only [SetTransformations.modelView, glm_scale_eq, glm_translate_eq,
    glm_rotate_X_eq F hnorm, glm_rotate_Y_eq F hnorm, glm_rotate_Z_eq F hnorm, glm.radians]

theorem mat4_mul_mulVec (A B : mat4 R) (v : vec4 R) :
    (A * B).mulVec v = A.mulVec (B.mulVec v) := by
  obtain ⟨⟨a00, a01, a02, a03⟩, ⟨a10, a11, a12, a13⟩, ⟨a20, a21, a22, a23⟩,
    ⟨a30, a31, a32, a33⟩⟩ := A
  obtain ⟨⟨b00, b01, b02, b03⟩, ⟨b10, b11, b12, b13⟩, ⟨b20, b21, b22, b23⟩,
    ⟨b30, b31, b32, b33⟩⟩ := B
  obtain ⟨x, y, z, w⟩ := v
  simp only [mat4_mul_mk, mat4_mulVec_mk, vec4_mul_mk, vec4_add_mk, vec4.mk.injEq]
  refine ⟨?_, ?_, ?_, ?_⟩ <;> ring

theorem Scale_mulVec (s p : vec3 R) (w : R) :
    (Spec.Scale s).mulVec (Spec.homogeneous p w) = Spec.homogeneous (Spec.scaleBy s p) w := by
  simp [Spec.Scale, Spec.homogeneous, Spec.scaleBy, mat4_mulVec_mk, vec4_mul_mk, vec4_add_mk]

theorem RotationX_mulVec (F : ScalarMath R) (a : R) (p : vec3 R) (w : R) :
    (Spec.RotationX F a).mulVec (Spec.homogeneous p w) =
      Spec.homogeneous (Spec.rotateX F a p) w := by
  simp only [Spec.RotationX, Spec.homogeneous, Spec.rotateX, mat4_mulVec_mk, vec4_mul_mk,
    vec4_add_mk, vec4.mk.injEq]
  refine ⟨?_, ?_, ?_, ?_⟩ <;> ring

theorem RotationY_mulVec (F : ScalarMath R) (a : R) (p : vec3 R) (w : R) :
    (Spec.RotationY F a).mulVec (Spec.homogeneous p w) =
      Spec.homogeneous (Spec.rotateY F a p) w := by
  simp only [Spec.RotationY, Spec.homogeneous, Spec.rotateY, mat4_mulVec_mk, vec4_mul_mk,
    vec4_add_mk, vec4.mk.injEq]
  refine ⟨?_, ?_, ?_, ?_⟩ <;> ring

theorem RotationZ_mulVec (F : ScalarMath R) (a : R) (p : vec3 R) (w : R) :
    (Spec.RotationZ F a).mulVec (Spec.homogeneous p w) =
      Spec.homogeneous (Spec.rotateZ F a p) w := by
  simp only [Spec.RotationZ, Spec.homogeneous, Spec.rotateZ, mat4_mulVec_mk, vec4_mul_mk,
    vec4_add_mk, vec4.mk.injEq]
  refine ⟨?_, ?_, ?_, ?_⟩ <;> ring

theorem Translation_mulVec (t p : vec3 R) (w : R) :
    (Spec.Translation t).mulVec (Spec.homogeneous p w) =
      Spec.homogeneous (Spec.translateBy (t * w) p) w := by
  simp only [Spec.Translation, Spec.homogeneous, Spec.translateBy, mat4_mulVec_mk, vec4_mul_mk,
    vec4_add_mk, vec4.mk.injEq]
  obtain ⟨tx, ty, tz⟩ := t
  simp only [vec3_mul_mk]
  refine ⟨?_, ?_, ?_, ?_⟩ <;> ring

theorem modelView_mulVec (F : ScalarMath R) (hnorm : F.inversesqrt 1 = 1)
    (s : vec3 R) (ax ay az : R) (t p : vec3 R) (w : R) :
    (SetTransformations.modelView F s ax ay az t).mulVec (Spec.homogeneous p w) =
      Spec.homogeneous
        (Spec.translateBy (t * w)
          (Spec.rotateX F (ax * (F.pi / 180))
            (Spec.rotateY F (ay * (F.pi / 180))
              (Spec.rotateZ F (az * (F.pi / 180)) (Spec.scaleBy s p))))) w := by
  rw [modelView_eq_product F hnorm, mat4_mul_mulVec, mat4_mul_mulVec, mat4_mul_mulVec,
    mat4_mul_mulVec, Scale_mulVec, RotationZ_mulVec, RotationY_mulVec, RotationX_mulVec,
    Translation_mulVec]

theorem uploadedModel_SetTransformations (F : ScalarMath R) (sm : SceneManager R)
    (sh : ShaderManager R) (hbound : sm.m_pShaderManager = some sh)
    (s : vec3 R) (ax ay az : R) (t : vec3 R) :
    uploadedModel (SetTransformations F sm s ax ay az t) =
      some (SetTransformations.modelView F s ax ay az t) := by
  simp [SetTransformations, hbound, uploadedModel, ShaderManager.setMat4Value,
    ShaderManager.setValue, ShaderManager.uniform, g_ModelName]

theorem real_quarter_turn : (90 : ℝ) * (Real.pi / 180) = Real.pi / 2 := by
  ring

/-- C4: with a shader manager bound, the matrix `SetTransformations` uploads to the
uniform `model` is `Translation(t) * RotationX(ax) * RotationY(ay) * RotationZ(az) *
Scale(s)`, the angles being multiplied by pi/180; applied to the column vector
`(p, 1)` it yields `t + Rx(ax) (Ry(ay) (Rz(az) (s componentwise-times p)))`; and with
all three angles zero it maps `(x, y, z)` to `(sx*x + tx, sy*y + ty, sz*z + tz)`.
Arithmetic is exact arithmetic in a field; the hypothesis on `inversesqrt` says that
normalising a unit axis leaves it unchanged, and the last part uses `cos 0 = 1` and
`sin 0 = 0`. -/
theorem SetTransformations_uploads_composition (F : ScalarMath R) (sm : SceneManager R)
    (sh : ShaderManager R) (s : vec3 R) (ax ay az : R) (t p : vec3 R)
    (hbound : sm.m_pShaderManager = some sh) (hnorm : F.inversesqrt 1 = 1) :
    ∃ M : mat4 R,
      uploadedModel (SetTransformations F sm s ax ay az t) = some M ∧
      M = Spec.Translation t * Spec.RotationX F (ax * (F.pi / 180)) *
            Spec.RotationY F (ay * (F.pi / 180)) * Spec.RotationZ F (az * (F.pi / 180)) *
            Spec.Scale s ∧
      M.mulVec ⟨p.x, p.y, p.z, 1⟩ =
        Spec.homogeneous
          (Spec.translateBy t
            (Spec.rotateX F (ax * (F.pi / 180))
              (Spec.rotateY F (ay * (F.pi / 180))
                (Spec.rotateZ F (az * (F.pi / 180)) (Spec.scaleBy s p))))) 1 ∧
      (F.cos 0 = 1 → F.sin 0 = 0 → ax = 0 → ay = 0 → az = 0 →
        M.mulVec ⟨p.x, p.y, p.z, 1⟩ =
          ⟨s.x * p.x + t.x, s.y * p.y + t.y, s.z * p.z + t.z, 1⟩) := by
  have hmul := modelView_mulVec F hnorm s ax ay az t p 1
  have ht : t * (1 : R) = t := by
    obtain ⟨tx, ty, tz⟩ := t
    simp [vec3_mul_mk]
  rw [ht] at hmul
  refine ⟨SetTransformations.modelView F s ax ay az t,
    uploadedModel_SetTransformations F sm sh hbound s ax ay az t,
    modelView_eq_product F hnorm s ax ay az t, hmul, ?_⟩
  intro hcos hsin hx hy hz
  subst hx hy hz
  have hmul0 : (SetTransformations.modelView F s 0 0 0 t).mulVec ⟨p.x, p.y, p.z, 1⟩ = _ := hmul
  rw [hmul0]
  simp only [zero_mul, Spec.homogeneous, Spec.translateBy, Spec.rotateX, Spec.rotateY,
    Spec.rotateZ, Spec.scaleBy, hcos, hsin, vec4.mk.injEq]
  refine ⟨?_, ?_, ?_, trivial⟩ <;> ring

/-- Witness for C4, over the real numbers with the real cosine, sine and inverse
square root: the laptop screen of `RenderScene` (scale (2.5, 1.5, 0.2), -60 degrees
about X, position (-0.5, -1.3, 1)), and the table (scale (12, 0.3, 12), no rotation,
position (0, -3, 0)) applied to the point (1, 1, 1). -/
theorem SetTransformations_uploads_composition_witness :
    (Real.sqrt 1)⁻¹ = 1 ∧
    uploadedModel (SetTransformations (ScalarMath.mk Real.cos Real.sin (fun x => (Real.sqrt x)⁻¹) Real.pi)
        (SceneManager.new (some ⟨[]⟩)) ⟨2.5, 1.5, 0.2⟩ (-60) 0 0 ⟨-0.5, -1.3, 1.0⟩) =
      some (Spec.Translation ⟨-0.5, -1.3, 1.0⟩ *
        Spec.RotationX (ScalarMath.mk Real.cos Real.sin (fun x => (Real.sqrt x)⁻¹) Real.pi) (-60 * (Real.pi / 180)) *
        Spec.RotationY (ScalarMath.mk Real.cos Real.sin (fun x => (Real.sqrt x)⁻¹) Real.pi) (0 * (Real.pi / 180)) *
        Spec.RotationZ (ScalarMath.mk Real.cos Real.sin (fun x => (Real.sqrt x)⁻¹) Real.pi) (0 * (Real.pi / 180)) *
        Spec.Scale ⟨2.5, 1.5, 0.2⟩) ∧
    (∃ M : mat4 ℝ,
      uploadedModel (SetTransformations (ScalarMath.mk Real.cos Real.sin (fun x => (Real.sqrt x)⁻¹) Real.pi)
        (SceneManager.new (some ⟨[]⟩)) ⟨12.0, 0.3, 12.0⟩ 0 0 0 ⟨0.0, -3.0, 0.0⟩) = some M ∧
      M.mulVec ⟨1, 1, 1, 1⟩ = ⟨12.0 * 1 + 0.0, 0.3 * 1 + -3.0, 12.0 * 1 + 0.0, 1⟩) := by
  obtain ⟨M, h1, h2, -⟩ := SetTransformations_uploads_composition (ScalarMath.mk Real.cos Real.sin (fun x => (Real.sqrt x)⁻¹) Real.pi)
    (SceneManager.new (some ⟨[]⟩)) ⟨[]⟩ ⟨2.5, 1.5, 0.2⟩ (-60) 0 0 ⟨-0.5, -1.3, 1.0⟩ ⟨1, 1, 1⟩
    rfl (by simp)
  obtain ⟨N, k1, -, -, k4⟩ := SetTransformations_uploads_composition (ScalarMath.mk Real.cos Real.sin (fun x => (Real.sqrt x)⁻¹) Real.pi)
    (SceneManager.new (some ⟨[]⟩)) ⟨[]⟩ ⟨12.0, 0.3, 12.0⟩ 0 0 0 ⟨0.0, -3.0, 0.0⟩ ⟨1, 1, 1⟩
    rfl (by simp)
  exact ⟨by simp, by rw [h1, h2], N, k1, k4 Real.cos_zero Real.sin_zero rfl rfl rfl⟩

/-- C5 as stated fails: for scale (2,1,1), rotation (0,90,0) degrees and translation
(5,0,0), the uploaded model matrix applied to the direction (1,0,0) (fourth
coordinate 0, so that the translation has no effect) is not (0,0,-1). -/
theorem modelView_yaw_example_not_unit :
    ¬ ((uploadedModel (SetTransformations (ScalarMath.mk Real.cos Real.sin (fun x => (Real.sqrt x)⁻¹) Real.pi)
          (SceneManager.new (some ⟨[]⟩)) ⟨2, 1, 1⟩ 0 90 0 ⟨5, 0, 0⟩)).map
        (fun M => M.mulVec ⟨1, 0, 0, 0⟩) = some ⟨0, 0, -1, 0⟩) := by
  rw [uploadedModel_SetTransformations _ _ ⟨[]⟩ rfl]
  have h := modelView_mulVec (ScalarMath.mk Real.cos Real.sin (fun x => (Real.sqrt x)⁻¹) Real.pi) (by simp) ⟨2, 1, 1⟩ 0 90 0 ⟨5, 0, 0⟩ ⟨1, 0, 0⟩ 0
  simp only [Spec.homogeneous] at h
  simp only [Option.map_some', h]
  simp [Spec.translateBy, Spec.rotateX, Spec.rotateY, Spec.rotateZ, Spec.scaleBy,
    real_quarter_turn, vec3_mul_mk]

/-- C5, amended: for scale (2,1,1), rotation (0,90,0) degrees and translation
(5,0,0), the uploaded model matrix applied to the direction (1,0,0) (fourth
coordinate 0, so that the translation has no effect) is (0,0,-2): the X axis is
turned onto the negative Z axis and stretched by the X scale 2. -/
theorem modelView_yaw_example :
    (uploadedModel (SetTransformations (ScalarMath.mk Real.cos Real.sin (fun x => (Real.sqrt x)⁻¹) Real.pi)
          (SceneManager.new (some ⟨[]⟩)) ⟨2, 1, 1⟩ 0 90 0 ⟨5, 0, 0⟩)).map
        (fun M => M.mulVec ⟨1, 0, 0, 0⟩) = some ⟨0, 0, -2, 0⟩ := by
  rw [uploadedModel_SetTransformations _ _ ⟨[]⟩ rfl]
  have h := modelView_mulVec (ScalarMath.mk Real.cos Real.sin (fun x => (Real.sqrt x)⁻¹) Real.pi) (by simp) ⟨2, 1, 1⟩ 0 90 0 ⟨5, 0, 0⟩ ⟨1, 0, 0⟩ 0
  simp only [Spec.homogeneous] at h
  simp only [Option.map_some', h]
  simp [Spec.translateBy, Spec.rotateX, Spec.rotateY, Spec.rotateZ, Spec.scaleBy,
    real_quarter_turn, vec3_mul_mk]

/-- C10 as stated fails: with scale (1,1,1), 90 degrees about X, 0 about Y, 90 about
Z and no translation, the uploaded matrix sends the point (1,0,0) to (0,0,1), whereas
scaling, then rotating about X, then Y, then Z, then translating gives (0,1,0). -/
theorem modelView_not_X_then_Y_then_Z :
    (uploadedModel (SetTransformations (ScalarMath.mk Real.cos Real.sin (fun x => (Real.sqrt x)⁻¹) Real.pi)
          (SceneManager.new (some ⟨[]⟩)) ⟨1, 1, 1⟩ 90 0 90 ⟨0, 0, 0⟩)).map
        (fun M => M.mulVec (Spec.homogeneous ⟨1, 0, 0⟩ 1)) = some ⟨0, 0, 1, 1⟩ ∧
    Spec.homogeneous
        (Spec.translateBy ⟨0, 0, 0⟩
          (Spec.rotateZ (ScalarMath.mk Real.cos Real.sin (fun x => (Real.sqrt x)⁻¹) Real.pi) (90 * (Real.pi / 180))
            (Spec.rotateY (ScalarMath.mk Real.cos Real.sin (fun x => (Real.sqrt x)⁻¹) Real.pi) (0 * (Real.pi / 180))
              (Spec.rotateX (ScalarMath.mk Real.cos Real.sin (fun x => (Real.sqrt x)⁻¹) Real.pi) (90 * (Real.pi / 180))
                (Spec.scaleBy ⟨1, 1, 1⟩ ⟨1, 0, 0⟩))))) 1 = ⟨0, 1, 0, 1⟩ ∧
    ¬ ((uploadedModel (SetTransformations (ScalarMath.mk Real.cos Real.sin (fun x => (Real.sqrt x)⁻¹) Real.pi)
          (SceneManager.new (some ⟨[]⟩)) ⟨1, 1, 1⟩ 90 0 90 ⟨0, 0, 0⟩)).map
        (fun M => M.mulVec (Spec.homogeneous ⟨1, 0, 0⟩ 1)) =
      some (Spec.homogeneous
        (Spec.translateBy ⟨0, 0, 0⟩
          (Spec.rotateZ (ScalarMath.mk Real.cos Real.sin (fun x => (Real.sqrt x)⁻¹) Real.pi) (90 * (Real.pi / 180))
            (Spec.rotateY (ScalarMath.mk Real.cos Real.sin (fun x => (Real.sqrt x)⁻¹) Real.pi) (0 * (Real.pi / 180))
              (Spec.rotateX (ScalarMath.mk Real.cos Real.sin (fun x => (Real.sqrt x)⁻¹) Real.pi) (90 * (Real.pi / 180))
                (Spec.scaleBy ⟨1, 1, 1⟩ ⟨1, 0, 0⟩))))) 1)) := by
  rw [uploadedModel_SetTransformations _ _ ⟨[]⟩ rfl]
  have h := modelView_mulVec (ScalarMath.mk Real.cos Real.sin (fun x => (Real.sqrt x)⁻¹) Real.pi) (by simp) ⟨1, 1, 1⟩ 90 0 90 ⟨0, 0, 0⟩ ⟨1, 0, 0⟩ 1
  simp only [Option.map_some', h]
  simp [Spec.homogeneous, Spec.translateBy, Spec.rotateX, Spec.rotateY, Spec.rotateZ,
    Spec.scaleBy, real_quarter_turn, vec3_mul_mk]

/-- C10, amended: the model matrix of `SetTransformations` transforms `p` by applying
the scale first, then the rotation about Z, then the rotation about Y, then the
rotation about X, and the translation last:
`M (p,1) = t + Rx(ax) (Ry(ay) (Rz(az) (s componentwise-times p)))`, which is also the
product of the five glm matrices applied one after the other from the right. -/
theorem SetTransformations_application_order (F : ScalarMath R) (sm : SceneManager R)
    (sh : ShaderManager R) (s : vec3 R) (ax ay az : R) (t p : vec3 R)
    (hbound : sm.m_pShaderManager = some sh) (hnorm : F.inversesqrt 1 = 1) :
    ∃ M : mat4 R,
      uploadedModel (SetTransformations F sm s ax ay az t) = some M ∧
      M.mulVec (Spec.homogeneous p 1) =
        (glm.translate t).mulVec
          ((glm.rotate F (glm.radians F ax) ⟨1, 0, 0⟩).mulVec
            ((glm.rotate F (glm.radians F ay) ⟨0, 1, 0⟩).mulVec
              ((glm.rotate F (glm.radians F az) ⟨0, 0, 1⟩).mulVec
                ((glm.scale s).mulVec (Spec.homogeneous p 1))))) ∧
      (glm.scale s).mulVec (Spec.homogeneous p 1) = Spec.homogeneous (Spec.scaleBy s p) 1 ∧
      (∀ q : vec3 R, (glm.rotate F (glm.radians F az) ⟨0, 0, 1⟩).mulVec (Spec.homogeneous q 1)
        = Spec.homogeneous (Spec.rotateZ F (az * (F.pi / 180)) q) 1) ∧
      (∀ q : vec3 R, (glm.rotate F (glm.radians F ay) ⟨0, 1, 0⟩).mulVec (Spec.homogeneous q 1)
        = Spec.homogeneous (Spec.rotateY F (ay * (F.pi / 180)) q) 1) ∧
      (∀ q : vec3 R, (glm.rotate F (glm.radians F ax) ⟨1, 0, 0⟩).mulVec (Spec.homogeneous q 1)
        = Spec.homogeneous (Spec.rotateX F (ax * (F.pi / 180)) q) 1) ∧
      (∀ q : vec3 R, (glm.translate t).mulVec (Spec.homogeneous q 1)
        = Spec.homogeneous (Spec.translateBy t q) 1) ∧
      M.mulVec (Spec.homogeneous p 1) =
        Spec.homogeneous
          (Spec.translateBy t
            (Spec.rotateX F (ax * (F.pi / 180))
              (Spec.rotateY F (ay * (F.pi / 180))
                (Spec.rotateZ F (az * (F.pi / 180)) (Spec.scaleBy s p))))) 1 := by
  have ht : ∀ u : vec3 R, u * (1 : R) = u := by
    intro u
    obtain ⟨ux, uy, uz⟩ := u
    simp [vec3_mul_mk]
  have hT : ∀ q : vec3 R, (glm.translate t).mulVec (Spec.homogeneous q 1)
      = Spec.homogeneous (Spec.translateBy t q) 1 := by
    intro q
    rw [glm_translate_eq, Translation_mulVec, ht]
  have hX : ∀ q : vec3 R, (glm.rotate F (glm.radians F ax) ⟨1, 0, 0⟩).mulVec
      (Spec.homogeneous q 1) = Spec.homogeneous (Spec.rotateX F (ax * (F.pi / 180)) q) 1 := by
    intro q
    rw [glm_rotate_X_eq F hnorm, RotationX_mulVec, glm.radians]
  have hY : ∀ q : vec3 R, (glm.rotate F (glm.radians F ay) ⟨0, 1, 0⟩).mulVec
      (Spec.homogeneous q 1) = Spec.homogeneous (Spec.rotateY F (ay * (F.pi / 180)) q) 1 := by
    intro q
    rw [glm_rotate_Y_eq F hnorm, RotationY_mulVec, glm.radians]
  have hZ : ∀ q : vec3 R, (glm.rotate F (glm.radians F az) ⟨0, 0, 1⟩).mulVec
      (Spec.homogeneous q 1) = Spec.homogeneous (Spec.rotateZ F (az * (F.pi / 180)) q) 1 := by
    intro q
    rw [glm_rotate_Z_eq F hnorm, RotationZ_mulVec, glm.radians]
  have hS : (glm.scale s).mulVec (Spec.homogeneous p 1)
      = Spec.homogeneous (Spec.scaleBy s p) 1 := by
    rw [glm_scale_eq, Scale_mulVec]
  have hmul := modelView_mulVec F hnorm s ax ay az t p 1
  rw [ht] at hmul
  refine ⟨SetTransformations.modelView F s ax ay az t,
    uploadedModel_SetTransformations F sm sh hbound s ax ay az t, ?_, hS, hZ, hY, hX, hT, hmul⟩
  rw [hS, hZ, hY, hX, hT, hmul]

/-- Witness for C10: the coffee mug of `RenderScene` (scale (0.6, 0.7, 0.6), 30
degrees about Y, position (1.5, -2.85, -1.2)) over the real numbers. -/
theorem SetTransformations_application_order_witness :
    (Real.sqrt 1)⁻¹ = 1 ∧
    ∃ M : mat4 ℝ,
      uploadedModel (SetTransformations (ScalarMath.mk Real.cos Real.sin (fun x => (Real.sqrt x)⁻¹) Real.pi)
        (SceneManager.new (some ⟨[]⟩)) ⟨0.6, 0.7, 0.6⟩ 0 30 0 ⟨1.5, -2.85, -1.2⟩) = some M ∧
      M.mulVec (Spec.homogeneous ⟨1, 1, 1⟩ 1) =
        Spec.homogeneous
          (Spec.translateBy ⟨1.5, -2.85, -1.2⟩
            (Spec.rotateX (ScalarMath.mk Real.cos Real.sin (fun x => (Real.sqrt x)⁻¹) Real.pi) (0 * (Real.pi / 180))
              (Spec.rotateY (ScalarMath.mk Real.cos Real.sin (fun x => (Real.sqrt x)⁻¹) Real.pi) (30 * (Real.pi / 180))
                (Spec.rotateZ (ScalarMath.mk Real.cos Real.sin (fun x => (Real.sqrt x)⁻¹) Real.pi) (0 * (Real.pi / 180))
                  (Spec.scaleBy ⟨0.6, 0.7, 0.6⟩ ⟨1, 1, 1⟩))))) 1 := by
  obtain ⟨M, h1, -, -, -, -, -, -, h2⟩ := SetTransformations_application_order (ScalarMath.mk Real.cos Real.sin (fun x => (Real.sqrt x)⁻¹) Real.pi)
    (SceneManager.new (some ⟨[]⟩)) ⟨[]⟩ ⟨0.6, 0.7, 0.6⟩ 0 30 0 ⟨1.5, -2.85, -1.2⟩ ⟨1, 1, 1⟩
    rfl (by simp)
  exact ⟨by simp, M, h1, h2⟩

end Transformations

/-! ## Shading state -/

section ShadingState

variable {R : Type}

theorem uniform_setValue (sh : ShaderManager R) (name : String) (v : UniformValue R)
    (n : String) :
    (sh.setValue name v).uniform n = if name = n then some v else sh.uniform n := by
  by_cases h : name = n
  · simp [ShaderManager.setValue, ShaderManager.uniform, h]
  · simp [ShaderManager.setValue, ShaderManager.uniform, h]

/-- C6: with a shader manager bound and a tag that is not in the tag-to-slot map,
`SetShaderTexture` performs exactly one uniform write, `bUseTexture := 0` (false);
the uniform `objectTexture` and every uniform other than `bUseTexture` keep their
prior value, and the registries are untouched. -/
theorem SetShaderTexture_unregistered_tag (sm : SceneManager R) (sh : ShaderManager R)
    (textureTag : String) (hbound : sm.m_pShaderManager = some sh)
    (hmiss : sm.m_textureSlotLookup textureTag = none) :
    ∃ sh1 : ShaderManager R,
      (SetShaderTexture sm textureTag).m_pShaderManager = some sh1 ∧
      sh1.writes = ("bUseTexture", UniformValue.intValue 0) :: sh.writes ∧
      sh1.uniform "bUseTexture" = some (UniformValue.intValue 0) ∧
      sh1.uniform "objectTexture" = sh.uniform "objectTexture" ∧
      (∀ name : String, name ≠ "bUseTexture" → sh1.uniform name = sh.uniform name) ∧
      (SetShaderTexture sm textureTag).m_textures = sm.m_textures ∧
      (SetShaderTexture sm textureTag).m_textureSlotLookup = sm.m_textureSlotLookup := by
  have hslot : FindTextureSlot sm textureTag = -1 := by
    simp [FindTextureSlot, hmiss]
  have hrun : SetShaderTexture sm textureTag =
      { sm with m_pShaderManager := some (sh.setIntValue g_UseTextureName 0) } := by
    simp [SetShaderTexture, hbound, hslot]
  rw [hrun]
  refine ⟨sh.setIntValue g_UseTextureName 0, rfl, rfl, ?_, ?_, ?_, rfl, rfl⟩
  · simp [ShaderManager.setIntValue, uniform_setValue, g_UseTextureName]
  · simp [ShaderManager.setIntValue, uniform_setValue, g_UseTextureName]
  · intro name hname
    have hne : ¬ ("bUseTexture" = name) := fun h => hname h.symm
    simp [ShaderManager.setIntValue, uniform_setValue, g_UseTextureName, hne]

/-- Witness for C6: the tag "marble" after the tag "wood" was bound to slot 0. -/
theorem SetShaderTexture_unregistered_tag_witness :
    ∃ sh1 : ShaderManager ℚ,
      (SetShaderTexture
        (SetShaderTexture
          (loadAll (⟨[], 0, []⟩, SceneManager.new (some ⟨[]⟩)) [⟨some ⟨8, 8, 3⟩, 1, "wood"⟩]).2
          "wood") "marble").m_pShaderManager = some sh1 ∧
      sh1.uniform "bUseTexture" = some (UniformValue.intValue 0) ∧
      sh1.uniform "objectTexture" = some (UniformValue.intValue 0) := by
  obtain ⟨sh1, h1, -, h3, h4, -⟩ := SetShaderTexture_unregistered_tag (R := ℚ)
    (SetShaderTexture
      (loadAll (⟨[], 0, []⟩, SceneManager.new (some ⟨[]⟩)) [⟨some ⟨8, 8, 3⟩, 1, "wood"⟩]).2
      "wood")
    ⟨[("objectTexture", .intValue 0), ("bUseTexture", .intValue 1)]⟩ "marble"
    (by decide) (by decide)
  exact ⟨sh1, h1, h3, by rw [h4]; decide⟩

end ShadingState

/-! ## Texture registry: failing loads, tag uniqueness, release -/

section TextureRegistryFailures

variable {R : Type}

/-- C7, the code at the failing input: loading a one-channel (greyscale) image into
an empty registry returns `false` and leaves the registry empty, but the texture
name 1 that was generated for the call is still allocated afterwards and no
`glDeleteTextures` call was made; when instead the registry is full, the generated
name 17 is deleted again. -/
theorem CreateGLTexture_unsupported_channels_leaks :
    (CreateGLTexture (R := ℚ) ⟨[], 0, []⟩ (SceneManager.new none)
        (some ⟨2, 2, 1⟩) 1 "grey").1 = false ∧
    (CreateGLTexture (R := ℚ) ⟨[], 0, []⟩ (SceneManager.new none)
        (some ⟨2, 2, 1⟩) 1 "grey").2.2.m_textures = [] ∧
    (CreateGLTexture (R := ℚ) ⟨[], 0, []⟩ (SceneManager.new none)
        (some ⟨2, 2, 1⟩) 1 "grey").2.1.textures = [1] ∧
    (CreateGLTexture (R := ℚ) ⟨[], 0, []⟩ (SceneManager.new none)
        (some ⟨2, 2, 1⟩) 1 "grey").2.1.deleteCalls = [] ∧
    (CreateGLTexture fullRegistry.1 fullRegistry.2 (some ⟨4, 4, 3⟩) 17 "t16").2.1.textures
      = fullRegistry.1.textures ∧
    (CreateGLTexture fullRegistry.1 fullRegistry.2 (some ⟨4, 4, 3⟩) 17 "t16").2.1.deleteCalls
      = [17] := by
  refine ⟨by decide, by decide, by decide, by decide, by decide, by decide⟩

theorem CreateGLTexture_result_cases (gl : GLContext) (sm : SceneManager R)
    (image : Option Image) (textureID : Nat) (tag : String) :
    ((CreateGLTexture gl sm image textureID tag).1 = false ∧
      (CreateGLTexture gl sm image textureID tag).2.2 = sm) ∨
    ((CreateGLTexture gl sm image textureID tag).1 = true ∧
      (CreateGLTexture gl sm image textureID tag).2.2 =
        { sm with
          m_textures := sm.m_textures ++ [⟨textureID, tag⟩]
          m_textureSlotLookup :=
            sm.m_textureSlotLookup.assign tag (static_cast_int sm.m_textures.length) }) := by
  unfold CreateGLTexture
  cases image with
  | none => exact Or.inl ⟨rfl, rfl⟩
  | some img =>
    by_cases hch : img.colorChannels = 3 ∨ img.colorChannels = 4
    · by_cases hfull : static_cast_int sm.m_textures.length ≥ 16
      · simp [hch, hfull]
      · simp [hch, hfull]
    · simp [hch]

theorem CreateGLTexture_slot_other (gl : GLContext) (sm : SceneManager R)
    (image : Option Image) (textureID : Nat) (tag other : String)
    (hne : tag ≠ other ∨ (CreateGLTexture gl sm image textureID tag).1 = false) :
    FindTextureSlot (CreateGLTexture gl sm image textureID tag).2.2 other =
      FindTextureSlot sm other := by
  rcases CreateGLTexture_result_cases gl sm image textureID tag with ⟨_, h⟩ | ⟨hok, h⟩
  · rw [h]
  · rcases hne with hne | hfail
    · rw [h]
      have hne2 : ¬ (other = tag) := fun e => hne e.symm
      simp [FindTextureSlot, TagMap.assign, hne2]
    · rw [hok] at hfail
      cases hfail

theorem loadAll_slot_stable (s : GLContext × SceneManager R) (later : List LoadCall)
    (tag : String) (hne : loadsAvoidTag tag s later = true) :
    FindTextureSlot (loadAll s later).2 tag = FindTextureSlot s.2 tag := by
  induction later generalizing s with
  | nil => rfl
  | cons c cs ih =>
    simp only [loadsAvoidTag, Bool.and_eq_true, Bool.or_eq_true, decide_eq_true_eq,
      Bool.not_eq_true'] at hne
    rw [loadAll, ih _ hne.2]
    exact CreateGLTexture_slot_other s.1 s.2 c.image c.textureID c.tag tag hne.1

theorem runCalls_tags_nodup (s : GLContext × SceneManager R) (calls : List RegistryCall)
    (hs : (s.2.m_textures.map TEXTURE_INFO.tag).Nodup)
    (hd : loadsDistinctTags s calls = true) :
    ((runCalls s calls).2.m_textures.map TEXTURE_INFO.tag).Nodup := by
  induction calls generalizing s with
  | nil => exact hs
  | cons c cs ih =>
    cases c with
    | create image textureID tag =>
      simp only [loadsDistinctTags, Bool.and_eq_true, Bool.or_eq_true, decide_eq_true_eq,
        Bool.not_eq_true'] at hd
      refine ih _ ?_ hd.2
      show ((CreateGLTexture s.1 s.2 image textureID tag).2.2.m_textures.map
        TEXTURE_INFO.tag).Nodup
      rcases CreateGLTexture_result_cases s.1 s.2 image textureID tag with ⟨_, h⟩ | ⟨hok, h⟩
      · rw [h]
        exact hs
      · have hfresh : tag ∉ s.2.m_textures.map TEXTURE_INFO.tag := by
          rcases hd.1 with hfresh | hfail
          · exact hfresh
          · rw [hok] at hfail
            cases hfail
        rw [h]
        simp only [List.map_append, List.map_cons, List.map_nil]
        refine List.Nodup.append hs (List.nodup_singleton _) ?_
        intro a ha hb
        rw [List.mem_singleton] at hb
        subst hb
        exact hfresh ha
    | destroy =>
      simp only [loadsDistinctTags] at hd
      refine ih _ ?_ hd
      show (([] : List TEXTURE_INFO).map TEXTURE_INFO.tag).Nodup
      exact List.nodup_nil

/-- C8 as stated fails: loading the tag "a" twice into an empty registry leaves two
entries that both carry "a", and `FindTextureSlot("a")`, which was 0 after the first
load, is 1 after the second. -/
theorem duplicate_tag_breaks_uniqueness :
    ¬ (((loadAll (R := ℚ) (⟨[], 0, []⟩, SceneManager.new none)
          [⟨some ⟨2, 2, 3⟩, 1, "a"⟩, ⟨some ⟨2, 2, 3⟩, 2, "a"⟩]).2.m_textures.map
          TEXTURE_INFO.tag).Nodup) ∧
    FindTextureSlot (loadAll (R := ℚ) (⟨[], 0, []⟩, SceneManager.new none)
      [⟨some ⟨2, 2, 3⟩, 1, "a"⟩]).2 "a" = 0 ∧
    FindTextureSlot (loadAll (R := ℚ) (⟨[], 0, []⟩, SceneManager.new none)
      [⟨some ⟨2, 2, 3⟩, 1, "a"⟩, ⟨some ⟨2, 2, 3⟩, 2, "a"⟩]).2 "a" = 1 := by
  refine ⟨by decide, by decide, by decide⟩

/-- C8, amended: in every state reached from the empty registry by a sequence of
`CreateGLTexture` and `DestroyGLTextures` calls in which no `CreateGLTexture` call
succeeds with a tag that an entry carries at that time, no two entries carry the same
tag; and `FindTextureSlot(tag)` is the same after any further `CreateGLTexture` calls
each of which fails or is made with a tag other than `tag`. -/
theorem distinct_loads_keep_tags_unique (gl0 : GLContext) (sh : Option (ShaderManager R))
    (calls : List RegistryCall)
    (hdistinct : loadsDistinctTags (gl0, SceneManager.new sh) calls = true) :
    ((runCalls (gl0, SceneManager.new sh) calls).2.m_textures.map TEXTURE_INFO.tag).Nodup ∧
    (∀ (later : List LoadCall) (tag : String),
      loadsAvoidTag tag (runCalls (gl0, SceneManager.new sh) calls) later = true →
      FindTextureSlot (loadAll (runCalls (gl0, SceneManager.new sh) calls) later).2 tag =
        FindTextureSlot (runCalls (gl0, SceneManager.new sh) calls).2 tag) :=
  ⟨runCalls_tags_nodup _ calls List.nodup_nil hdistinct,
    fun later tag hne => loadAll_slot_stable _ later tag hne⟩

/-- Witness for C8: "a" and "b" are loaded, a file that cannot be decoded is given
for "a", the registry is released, "a" is loaded again; afterwards "b" is loaded,
which leaves the slot of "a" at 0. -/
theorem distinct_loads_keep_tags_unique_witness :
    ((runCalls (R := ℚ) (⟨[], 0, []⟩, SceneManager.new none)
        [.create (some ⟨2, 2, 3⟩) 1 "a", .create (some ⟨2, 2, 4⟩) 2 "b", .create none 0 "a",
          .destroy, .create (some ⟨2, 2, 3⟩) 3 "a"]).2.m_textures.map TEXTURE_INFO.tag).Nodup ∧
    FindTextureSlot (loadAll (runCalls (R := ℚ) (⟨[], 0, []⟩, SceneManager.new none)
        [.create (some ⟨2, 2, 3⟩) 1 "a", .create (some ⟨2, 2, 4⟩) 2 "b", .create none 0 "a",
          .destroy, .create (some ⟨2, 2, 3⟩) 3 "a"]) [⟨some ⟨2, 2, 4⟩, 4, "b"⟩]).2 "a" = 0 :=
  have h := distinct_loads_keep_tags_unique (R := ℚ) ⟨[], 0, []⟩ none
    [.create (some ⟨2, 2, 3⟩) 1 "a", .create (some ⟨2, 2, 4⟩) 2 "b", .create none 0 "a",
      .destroy, .create (some ⟨2, 2, 3⟩) 3 "a"] (by decide)
  ⟨h.1, (h.2 [⟨some ⟨2, 2, 4⟩, 4, "b"⟩] "a" (by decide)).trans (by decide)⟩

theorem destroy_fold_deleteCalls (l : List TEXTURE_INFO) (gl : GLContext) :
    (l.foldl (fun g tex => if tex.ID ≠ 0 then glDeleteTextures g tex.ID else g) gl).deleteCalls
      = ((l.map TEXTURE_INFO.ID).filter (fun i => decide (i ≠ 0))).reverse ++ gl.deleteCalls := by
  induction l generalizing gl with
  | nil => simp
  | cons tex rest ih =>
    rw [List.foldl_cons, ih]
    by_cases h0 : tex.ID = 0
    · simp [h0]
    · simp [h0, glDeleteTextures]

theorem destroy_fold_textures (l : List TEXTURE_INFO) (gl : GLContext) :
    (l.foldl (fun g tex => if tex.ID ≠ 0 then glDeleteTextures g tex.ID else g) gl).textures
      = gl.textures.filter
          (fun t => decide (t ∉ (l.map TEXTURE_INFO.ID).filter (fun i => decide (i ≠ 0)))) := by
  induction l generalizing gl with
  | nil => simp
  | cons tex rest ih =>
    rw [List.foldl_cons, ih]
    by_cases h0 : tex.ID = 0
    · simp [h0]
    · have hstep : (if tex.ID ≠ 0 then glDeleteTextures gl tex.ID else gl)
          = glDeleteTextures gl tex.ID := if_pos h0
      rw [hstep]
      simp only [glDeleteTextures, List.filter_filter]
      apply List.filter_congr
      intro t _
      by_cases ht : t = tex.ID
      · simp [ht, h0]
      · simp [ht, h0]

/-- C9: `DestroyGLTextures` leaves the entry sequence and the tag-to-slot map empty;
a second call changes nothing (the state after two calls is the state after one) and
issues no `glDeleteTextures` call.  The first call issues one `glDeleteTextures` call
per entry with a non-zero texture name, in order, so over the two calls a name is
deleted as often as the registry held it: exactly once when the names in the registry
are distinct, after which it is no longer allocated. -/
theorem DestroyGLTextures_idempotent (gl : GLContext) (sm : SceneManager R) :
    (DestroyGLTextures gl sm).2.m_textures = [] ∧
    (∀ t : String, (DestroyGLTextures gl sm).2.m_textureSlotLookup t = none) ∧
    DestroyGLTextures (DestroyGLTextures gl sm).1 (DestroyGLTextures gl sm).2
      = DestroyGLTextures gl sm ∧
    (DestroyGLTextures (DestroyGLTextures gl sm).1 (DestroyGLTextures gl sm).2).1.deleteCalls
      = (DestroyGLTextures gl sm).1.deleteCalls ∧
    (DestroyGLTextures gl sm).1.deleteCalls =
      ((sm.m_textures.map TEXTURE_INFO.ID).filter (fun i => decide (i ≠ 0))).reverse
        ++ gl.deleteCalls ∧
    (∀ h : Nat, h ≠ 0 →
      (DestroyGLTextures (DestroyGLTextures gl sm).1
          (DestroyGLTextures gl sm).2).1.deleteCalls.count h
        = (sm.m_textures.map TEXTURE_INFO.ID).count h + gl.deleteCalls.count h) ∧
    ((sm.m_textures.map TEXTURE_INFO.ID).Nodup →
      ∀ tex ∈ sm.m_textures, tex.ID ≠ 0 →
        (DestroyGLTextures (DestroyGLTextures gl sm).1
            (DestroyGLTextures gl sm).2).1.deleteCalls.count tex.ID
          = 1 + gl.deleteCalls.count tex.ID ∧
        tex.ID ∉ (DestroyGLTextures gl sm).1.textures) := by
  have htwice : DestroyGLTextures (DestroyGLTextures gl sm).1 (DestroyGLTextures gl sm).2
      = DestroyGLTextures gl sm := rfl
  have hlog := destroy_fold_deleteCalls sm.m_textures gl
  have hcount : ∀ h : Nat, h ≠ 0 →
      (DestroyGLTextures gl sm).1.deleteCalls.count h
        = (sm.m_textures.map TEXTURE_INFO.ID).count h + gl.deleteCalls.count h := by
    intro h h0
    show (sm.m_textures.foldl _ gl).deleteCalls.count h = _
    rw [hlog, List.count_append, List.count_reverse, List.count_filter]
    simp [h0]
  refine ⟨rfl, fun _ => rfl, htwice, by rw [htwice], hlog, ?_, ?_⟩
  · intro h h0
    rw [htwice]
    exact hcount h h0
  · intro hnodup tex htex h0
    rw [htwice, hcount tex.ID h0]
    refine ⟨?_, ?_⟩
    · rw [List.count_eq_one_of_mem hnodup (List.mem_map_of_mem _ htex)]
    · show tex.ID ∉ (sm.m_textures.foldl _ gl).textures
      rw [destroy_fold_textures]
      intro hmem
      have h2 := (List.mem_filter.mp hmem).2
      simp only [decide_eq_true_eq] at h2
      exact h2 (List.mem_filter.mpr ⟨List.mem_map_of_mem _ htex, by simpa using h0⟩)

end TextureRegistryFailures

/-! ## Material upload and the absent shader manager -/

section MaterialUpload

variable {R : Type} [Field R]

/-- C11: `SetShaderMaterial(tag)` leaves the object, and with it every shader
uniform, unchanged when the material list is empty or `FindMaterial` does not find
the tag; otherwise, with a shader manager bound and the tag found, it performs
exactly five uniform writes, `material.ambientColor`, `material.ambientStrength`,
`material.diffuseColor`, `material.specularColor` and `material.shininess`, with the
values of the found record, and every other uniform keeps its value. -/
theorem SetShaderMaterial_uploads_found_record (sm : SceneManager R) (materialTag : String) :
    ((sm.m_objectMaterials = [] ∨
        (FindMaterial sm materialTag OBJECT_MATERIAL.uninitialized).1 = false) →
      SetShaderMaterial sm materialTag = sm) ∧
    (∀ (sh : ShaderManager R) (material : OBJECT_MATERIAL R),
      sm.m_pShaderManager = some sh → sm.m_objectMaterials ≠ [] →
      FindMaterial sm materialTag OBJECT_MATERIAL.uninitialized = (true, material) →
      ∃ sh1 : ShaderManager R,
        SetShaderMaterial sm materialTag = { sm with m_pShaderManager := some sh1 } ∧
        sh1.writes =
          [("material.shininess", UniformValue.floatValue material.shininess),
           ("material.specularColor", UniformValue.vec3Value material.specularColor),
           ("material.diffuseColor", UniformValue.vec3Value material.diffuseColor),
           ("material.ambientStrength", UniformValue.floatValue material.ambientStrength),
           ("material.ambientColor", UniformValue.vec3Value material.ambientColor)]
            ++ sh.writes ∧
        sh1.uniform "material.ambientColor"
          = some (UniformValue.vec3Value material.ambientColor) ∧
        sh1.uniform "material.ambientStrength"
          = some (UniformValue.floatValue material.ambientStrength) ∧
        sh1.uniform "material.diffuseColor"
          = some (UniformValue.vec3Value material.diffuseColor) ∧
        sh1.uniform "material.specularColor"
          = some (UniformValue.vec3Value material.specularColor) ∧
        sh1.uniform "material.shininess"
          = some (UniformValue.floatValue material.shininess) ∧
        (∀ name : String,
          name ∉ ["material.ambientColor", "material.ambientStrength",
            "material.diffuseColor", "material.specularColor", "material.shininess"] →
          sh1.uniform name = sh.uniform name)) := by
  constructor
  · intro h
    unfold SetShaderMaterial
    cases hlist : sm.m_objectMaterials with
    | nil => rfl
    | cons m ms =>
      cases hsh : sm.m_pShaderManager with
      | none => rfl
      | some sh =>
        rcases h with h | h
        · rw [hlist] at h
          cases h
        · cases hfind : FindMaterial sm materialTag OBJECT_MATERIAL.uninitialized with
          | mk found material =>
            rw [hfind] at h
            simp only at h
            subst h
            rfl
  · intro sh material hsh hlist hfind
    have hrun : SetShaderMaterial sm materialTag =
        { sm with
          m_pShaderManager :=
            some (((((sh.setVec3Value "material.ambientColor"
              material.ambientColor).setFloatValue
              "material.ambientStrength" material.ambientStrength).setVec3Value
              "material.diffuseColor" material.diffuseColor).setVec3Value
              "material.specularColor" material.specularColor).setFloatValue
              "material.shininess" material.shininess) } := by
      unfold SetShaderMaterial
      cases hl : sm.m_objectMaterials with
      | nil => exact absurd hl hlist
      | cons m ms => simp only [hsh, hfind]
    refine ⟨_, hrun, rfl, ?_, ?_, ?_, ?_, ?_, ?_⟩
    · simp [ShaderManager.setVec3Value, ShaderManager.setFloatValue, uniform_setValue]
    · simp [ShaderManager.setVec3Value, ShaderManager.setFloatValue, uniform_setValue]
    · simp [ShaderManager.setVec3Value, ShaderManager.setFloatValue, uniform_setValue]
    · simp [ShaderManager.setVec3Value, ShaderManager.setFloatValue, uniform_setValue]
    · simp [ShaderManager.setVec3Value, ShaderManager.setFloatValue, uniform_setValue]
    · intro name hname
      simp only [List.mem_cons, List.mem_singleton, List.not_mem_nil, or_false, not_or] at hname
      obtain ⟨h1, h2, h3, h4, h5⟩ := hname
      have e1 : ¬ ("material.ambientColor" = name) := fun h => h1 h.symm
      have e2 : ¬ ("material.ambientStrength" = name) := fun h => h2 h.symm
      have e3 : ¬ ("material.diffuseColor" = name) := fun h => h3 h.symm
      have e4 : ¬ ("material.specularColor" = name) := fun h => h4 h.symm
      have e5 : ¬ ("material.shininess" = name) := fun h => h5 h.symm
      simp [ShaderManager.setVec3Value, ShaderManager.setFloatValue, uniform_setValue,
        e1, e2, e3, e4, e5]

/-- C12: when the shader manager pointer is null, each of `SetTransformations`,
`SetShaderColor`, `SetShaderTexture`, `SetTextureUVScale`, `SetShaderMaterial` and
`SetupSceneLights` returns with the object exactly as it was, for all arguments: the
pointer stays null (there is nothing to write a uniform to) and the texture and
material registries are unchanged. -/
theorem null_shader_manager_no_op (F : ScalarMath R) (sm : SceneManager R)
    (hnull : sm.m_pShaderManager = none) :
    (∀ (s : vec3 R) (ax ay az : R) (t : vec3 R), SetTransformations F sm s ax ay az t = sm) ∧
    (∀ r g b a : R, SetShaderColor sm r g b a = sm) ∧
    (∀ tag : String, SetShaderTexture sm tag = sm) ∧
    (∀ u v : R, SetTextureUVScale sm u v = sm) ∧
    (∀ tag : String, SetShaderMaterial sm tag = sm) ∧
    SetupSceneLights sm = sm := by
  refine ⟨?_, ?_, ?_, ?_, ?_, ?_⟩
  · intro s ax ay az t
    simp only [SetTransformations, hnull]
  · intro r g b a
    simp only [SetShaderColor, hnull]
  · intro tag
    simp only [SetShaderTexture, hnull]
  · intro u v
    simp only [SetTextureUVScale, hnull]
  · intro tag
    unfold SetShaderMaterial
    cases sm.m_objectMaterials with
    | nil => rfl
    | cons m ms => simp only [hnull]
  · simp only [SetupSceneLights, hnull]

/-- Witness for C12: an object with the material catalog defined, one texture
loaded and no shader manager. -/
theorem null_shader_manager_no_op_witness :
    SetShaderMaterial (DefineObjectMaterials (loadAll (R := ℚ)
        (⟨[], 0, []⟩, SceneManager.new none) [⟨some ⟨8, 8, 3⟩, 1, "wood"⟩]).2) "wood"
      = DefineObjectMaterials (loadAll (R := ℚ)
        (⟨[], 0, []⟩, SceneManager.new none) [⟨some ⟨8, 8, 3⟩, 1, "wood"⟩]).2 ∧
    SetShaderTexture (DefineObjectMaterials (loadAll (R := ℚ)
        (⟨[], 0, []⟩, SceneManager.new none) [⟨some ⟨8, 8, 3⟩, 1, "wood"⟩]).2) "wood"
      = DefineObjectMaterials (loadAll (R := ℚ)
        (⟨[], 0, []⟩, SceneManager.new none) [⟨some ⟨8, 8, 3⟩, 1, "wood"⟩]).2 ∧
    SetupSceneLights (DefineObjectMaterials (loadAll (R := ℚ)
        (⟨[], 0, []⟩, SceneManager.new none) [⟨some ⟨8, 8, 3⟩, 1, "wood"⟩]).2)
      = DefineObjectMaterials (loadAll (R := ℚ)
        (⟨[], 0, []⟩, SceneManager.new none) [⟨some ⟨8, 8, 3⟩, 1, "wood"⟩]).2 :=
  have h := null_shader_manager_no_op (R := ℚ) ⟨fun _ => 1, fun _ => 0, fun _ => 1, 3⟩
    (DefineObjectMaterials (loadAll (R := ℚ)
      (⟨[], 0, []⟩, SceneManager.new none) [⟨some ⟨8, 8, 3⟩, 1, "wood"⟩]).2) (by decide)
  ⟨h.2.2.2.2.1 "wood", h.2.2.1 "wood", h.2.2.2.2.2⟩

end MaterialUpload

/-! ## Texture registry: the invariant of reachable states -/

section RegistryInvariant

variable {R : Type}

theorem CreateGLTexture_success_room (gl : GLContext) (sm : SceneManager R)
    (image : Option Image) (textureID : Nat) (tag : String)
    (hok : (CreateGLTexture gl sm image textureID tag).1 = true) :
    static_cast_int sm.m_textures.length < 16 := by
  unfold CreateGLTexture at hok
  cases image with
  | none => simp at hok
  | some img =>
    by_cases hch : img.colorChannels = 3 ∨ img.colorChannels = 4
    · by_cases hfull : static_cast_int sm.m_textures.length ≥ 16
      · simp [hch, hfull] at hok
      · omega
    · simp [hch] at hok

theorem CreateGLTexture_consistent (gl : GLContext) (sm : SceneManager R)
    (image : Option Image) (textureID : Nat) (tag : String) (hinv : RegistryConsistent sm) :
    RegistryConsistent (CreateGLTexture gl sm image textureID tag).2.2 := by
  rcases CreateGLTexture_result_cases gl sm image textureID tag with ⟨_, h⟩ | ⟨hok, h⟩
  · rw [h]
    exact hinv
  · have hroom := CreateGLTexture_success_room gl sm image textureID tag hok
    obtain ⟨hlen, hmap⟩ := hinv
    have hcast : static_cast_int sm.m_textures.length = sm.m_textures.length :=
      static_cast_int_of_lt _ (by omega)
    rw [hcast] at hroom
    rw [h, hcast]
    refine ⟨?_, ?_⟩
    · simp only [List.length_append, List.length_singleton]
      omega
    · intro t i hi
      simp only [TagMap.assign] at hi
      simp only [List.length_append, List.length_singleton]
      by_cases ht : t = tag
      · rw [if_pos ht] at hi
        have hi2 : (sm.m_textures.length : Int) = i := Option.some.inj hi
        subst hi2
        refine ⟨by omega, by omega, ⟨textureID, tag⟩, ?_, ht.symm⟩
        simp
      · rw [if_neg ht] at hi
        obtain ⟨h0, hlt, tex, hget, htag⟩ := hmap t i hi
        refine ⟨h0, by omega, tex, ?_, htag⟩
        have hnat : i.toNat < sm.m_textures.length := by omega
        rw [List.get?_eq_getElem?, List.getElem?_append_left hnat, ← List.get?_eq_getElem?]
        exact hget

theorem runCalls_consistent (s : GLContext × SceneManager R) (calls : List RegistryCall)
    (hinv : RegistryConsistent s.2) : RegistryConsistent (runCalls s calls).2 := by
  induction calls generalizing s with
  | nil => exact hinv
  | cons c cs ih =>
    cases c with
    | create image textureID tag =>
      exact ih _ (CreateGLTexture_consistent s.1 s.2 image textureID tag hinv)
    | destroy =>
      refine ih _ ⟨by simp [RegistryCall.run, DestroyGLTextures], ?_⟩
      intro t i hi
      simp [RegistryCall.run, DestroyGLTextures, TagMap.clear] at hi

theorem consistent_lookup_facts (sm : SceneManager R) (hinv : RegistryConsistent sm) :
    (∀ (tag : String) (i : Int), sm.m_textureSlotLookup tag = some i →
      ¬ (i < 0 ∨ i ≥ static_cast_int sm.m_textures.length)) ∧
    (∀ tag : String, FindTextureSlot sm tag = -1 ↔ sm.m_textureSlotLookup tag = none) ∧
    (∀ tag : String, sm.m_textureSlotLookup tag = none → FindTextureID sm tag = -1) ∧
    (∀ (tag : String) (i : Int), sm.m_textureSlotLookup tag = some i →
      ∃ tex : TEXTURE_INFO, sm.m_textures.get? i.toNat = some tex ∧ tex.tag = tag ∧
        FindTextureID sm tag = static_cast_int tex.ID) := by
  obtain ⟨hlen, hmap⟩ := hinv
  have hcast : static_cast_int sm.m_textures.length = sm.m_textures.length :=
    static_cast_int_of_lt _ (by omega)
  have hrange : ∀ (tag : String) (i : Int), sm.m_textureSlotLookup tag = some i →
      ¬ (i < 0 ∨ i ≥ static_cast_int sm.m_textures.length) := by
    intro tag i hi
    obtain ⟨h0, hlt, -⟩ := hmap tag i hi
    rw [hcast]
    omega
  refine ⟨hrange, ?_, ?_, ?_⟩
  · intro tag
    unfold FindTextureSlot
    cases hi : sm.m_textureSlotLookup tag with
    | none => simp
    | some i =>
      obtain ⟨h0, -, -⟩ := hmap tag i hi
      simp only [reduceCtorEq, iff_false]
      omega
  · intro tag hnone
    simp [FindTextureID, hnone]
  · intro tag i hi
    obtain ⟨h0, hlt, tex, hget, htag⟩ := hmap tag i hi
    refine ⟨tex, hget, htag, ?_⟩
    simp only [FindTextureID, hi, if_neg (hrange tag i hi), hget]

/-- C14 as stated fails in its last part: after one successful load whose texture
name is 4294967295 (the `GLuint` that converts to the `int` -1), `FindTextureSlot`
finds the tag at slot 0 while `FindTextureID` returns -1, the not-found value. -/
theorem FindTextureID_sentinel_collision :
    FindTextureSlot (runCalls (R := ℚ) (⟨[], 0, []⟩, SceneManager.new none)
      [.create (some ⟨2, 2, 3⟩) 4294967295 "a"]).2 "a" = 0 ∧
    FindTextureID (runCalls (R := ℚ) (⟨[], 0, []⟩, SceneManager.new none)
      [.create (some ⟨2, 2, 3⟩) 4294967295 "a"]).2 "a" = -1 ∧
    ¬ (FindTextureID (runCalls (R := ℚ) (⟨[], 0, []⟩, SceneManager.new none)
        [.create (some ⟨2, 2, 3⟩) 4294967295 "a"]).2 "a" = -1 ↔
      FindTextureSlot (runCalls (R := ℚ) (⟨[], 0, []⟩, SceneManager.new none)
        [.create (some ⟨2, 2, 3⟩) 4294967295 "a"]).2 "a" = -1) := by
  refine ⟨by decide, by decide, by decide⟩

/-- C14, amended: in every state reached from the empty registry by a sequence of
`CreateGLTexture` and `DestroyGLTextures` calls, the registry holds at most 16 entries
and every tag of the tag-to-slot map is mapped to a slot `i` with
`0 <= i < number of entries` whose entry carries that tag; so the out-of-range branch
of `FindTextureID` is never taken, `FindTextureSlot(tag)` is -1 exactly when the tag
is not in the map, `FindTextureID(tag)` is -1 when the tag is not in the map and the
texture name of the entry at its slot (converted to `int`) when it is; and when no
entry holds a texture name that converts to -1, `FindTextureID(tag)` is -1 exactly
when `FindTextureSlot(tag)` is. -/
theorem reachable_registry_consistent (gl0 : GLContext) (sh : Option (ShaderManager R))
    (calls : List RegistryCall) :
    (runCalls (gl0, SceneManager.new sh) calls).2.m_textures.length ≤ 16 ∧
    (∀ (tag : String) (i : Int), (runCalls (gl0, SceneManager.new sh) calls).2.m_textureSlotLookup tag = some i →
      0 ≤ i ∧ i < (runCalls (gl0, SceneManager.new sh) calls).2.m_textures.length ∧
      ∃ tex : TEXTURE_INFO, (runCalls (gl0, SceneManager.new sh) calls).2.m_textures.get? i.toNat = some tex ∧ tex.tag = tag) ∧
    (∀ (tag : String) (i : Int), (runCalls (gl0, SceneManager.new sh) calls).2.m_textureSlotLookup tag = some i →
      ¬ (i < 0 ∨ i ≥ static_cast_int (runCalls (gl0, SceneManager.new sh) calls).2.m_textures.length)) ∧
    (∀ tag : String, FindTextureSlot (runCalls (gl0, SceneManager.new sh) calls).2 tag = -1 ↔ (runCalls (gl0, SceneManager.new sh) calls).2.m_textureSlotLookup tag = none) ∧
    (∀ tag : String, (runCalls (gl0, SceneManager.new sh) calls).2.m_textureSlotLookup tag = none → FindTextureID (runCalls (gl0, SceneManager.new sh) calls).2 tag = -1) ∧
    (∀ (tag : String) (i : Int), (runCalls (gl0, SceneManager.new sh) calls).2.m_textureSlotLookup tag = some i →
      ∃ tex : TEXTURE_INFO, (runCalls (gl0, SceneManager.new sh) calls).2.m_textures.get? i.toNat = some tex ∧ tex.tag = tag ∧
        FindTextureID (runCalls (gl0, SceneManager.new sh) calls).2 tag = static_cast_int tex.ID) ∧
    ((∀ tex ∈ (runCalls (gl0, SceneManager.new sh) calls).2.m_textures, static_cast_int tex.ID ≠ -1) →
      ∀ tag : String, FindTextureID (runCalls (gl0, SceneManager.new sh) calls).2 tag = -1 ↔ FindTextureSlot (runCalls (gl0, SceneManager.new sh) calls).2 tag = -1) := by
  have hinv : RegistryConsistent (runCalls (gl0, SceneManager.new sh) calls).2 :=
    runCalls_consistent _ calls ⟨by simp [SceneManager.new], by
      intro t i hi
      simp [SceneManager.new, TagMap.clear] at hi⟩
  obtain ⟨hrange, hslot, hmiss, hfound⟩ := consistent_lookup_facts _ hinv
  refine ⟨hinv.1, hinv.2, hrange, hslot, hmiss, hfound, ?_⟩
  intro hnames tag
  constructor
  · intro hid
    cases hi : (runCalls (gl0, SceneManager.new sh) calls).2.m_textureSlotLookup tag with
    | none => exact (hslot tag).mpr hi
    | some i =>
      obtain ⟨tex, hget, -, hval⟩ := hfound tag i hi
      rw [hval] at hid
      exact absurd hid (hnames tex (List.get?_mem hget))
  · intro hs
    exact hmiss tag ((hslot tag).mp hs)

end RegistryInvariant

/-! ## The render sequence -/

section RenderSequence

variable {R : Type} [Field R]

theorem SetTransformations_step (F : ScalarMath R) (sh : ShaderManager R)
    (tx : List TEXTURE_INFO) (lk : TagMap Int) (om : List (OBJECT_MATERIAL R))
    (ml : TagMap (OBJECT_MATERIAL R)) (s : vec3 R) (ax ay az : R) (t : vec3 R) :
    SetTransformations F ⟨some sh, tx, lk, om, ml⟩ s ax ay az t =
      ⟨some ⟨("model", .mat4Value (SetTransformations.modelView F s ax ay az t)) :: sh.writes⟩,
        tx, lk, om, ml⟩ := rfl

theorem SetShaderColor_step (sh : ShaderManager R)
    (tx : List TEXTURE_INFO) (lk : TagMap Int) (om : List (OBJECT_MATERIAL R))
    (ml : TagMap (OBJECT_MATERIAL R)) (r g b a : R) :
    SetShaderColor ⟨some sh, tx, lk, om, ml⟩ r g b a =
      ⟨some ⟨("objectColor", .vec4Value ⟨r, g, b, a⟩) :: ("bUseTexture", .intValue 0)
        :: sh.writes⟩, tx, lk, om, ml⟩ := rfl

theorem SetShaderTexture_step (sh : ShaderManager R)
    (tx : List TEXTURE_INFO) (lk : TagMap Int) (om : List (OBJECT_MATERIAL R))
    (ml : TagMap (OBJECT_MATERIAL R)) (tag : String) (slot : Int)
    (hslot : lk tag = some slot) (h0 : 0 ≤ slot) :
    SetShaderTexture ⟨some sh, tx, lk, om, ml⟩ tag =
      ⟨some ⟨("objectTexture", .intValue slot) :: ("bUseTexture", .intValue 1)
        :: sh.writes⟩, tx, lk, om, ml⟩ := by
  simp only [SetShaderTexture, FindTextureSlot, hslot, ge_iff_le, h0, if_true]
  rfl

theorem SetShaderMaterial_step (sh : ShaderManager R)
    (tx : List TEXTURE_INFO) (lk : TagMap Int) (om : List (OBJECT_MATERIAL R))
    (ml : TagMap (OBJECT_MATERIAL R)) (tag : String) (m : OBJECT_MATERIAL R)
    (hne : om ≠ []) (hfind : ml tag = some m) :
    SetShaderMaterial ⟨some sh, tx, lk, om, ml⟩ tag =
      ⟨some ⟨("material.shininess", .floatValue m.shininess)
        :: ("material.specularColor", .vec3Value m.specularColor)
        :: ("material.diffuseColor", .vec3Value m.diffuseColor)
        :: ("material.ambientStrength", .floatValue m.ambientStrength)
        :: ("material.ambientColor", .vec3Value m.ambientColor) :: sh.writes⟩,
        tx, lk, om, ml⟩ := by
  cases om with
  | nil => exact absurd rfl hne
  | cons o os =>
    simp only [SetShaderMaterial, FindMaterial, hfind]
    rfl

theorem RenderScene_executes (F : ScalarMath R) (meshes : ShapeMeshes R)
    (sh : ShaderManager R) (tx : List TEXTURE_INFO) (lk : TagMap Int)
    (om : List (OBJECT_MATERIAL R)) (ml : TagMap (OBJECT_MATERIAL R))
    (wood gold glass ceramic : OBJECT_MATERIAL R) (woodSlot goldSlot lightSlot mugSlot : Int)
    (hne : om ≠ [])
    (hwood : ml "wood" = some wood) (hgold : ml "gold" = some gold)
    (hglass : ml "glass" = some glass) (hceramic : ml "ceramic" = some ceramic)
    (hws : lk "wood" = some woodSlot) (hgs : lk "gold" = some goldSlot)
    (hls : lk "light" = some lightSlot) (hms : lk "Mug" = some mugSlot)
    (hw0 : 0 ≤ woodSlot) (hg0 : 0 ≤ goldSlot) (hl0 : 0 ≤ lightSlot) (hm0 : 0 ≤ mugSlot) :
    RenderScene F meshes ⟨some sh, tx, lk, om, ml⟩ =
      ((Spec.execute meshes sh (Spec.renderSequence F wood gold glass ceramic
          woodSlot goldSlot lightSlot mugSlot)).1,
        ⟨some (Spec.execute meshes sh (Spec.renderSequence F wood gold glass ceramic
          woodSlot goldSlot lightSlot mugSlot)).2, tx, lk, om, ml⟩) := by
  simp only [RenderScene, SetTransformations_step, SetShaderColor_step,
    SetShaderMaterial_step _ _ _ _ _ _ _ hne hwood, SetShaderMaterial_step _ _ _ _ _ _ _ hne hgold,
    SetShaderMaterial_step _ _ _ _ _ _ _ hne hglass,
    SetShaderMaterial_step _ _ _ _ _ _ _ hne hceramic,
    SetShaderTexture_step _ _ _ _ _ _ _ hws hw0, SetShaderTexture_step _ _ _ _ _ _ _ hgs hg0,
    SetShaderTexture_step _ _ _ _ _ _ _ hls hl0, SetShaderTexture_step _ _ _ _ _ _ _ hms hm0]
  rfl

theorem LoadSceneTextures_new (gl : GLContext) (p : Option (ShaderManager R))
    (stbi_load : String → Option Image) (glGen : Nat → Nat)
    (himg : ∀ path ∈ ["../../Utilities/textures/wood.jpg",
        "../../Utilities/textures/greencup.png", "../../Utilities/textures/light.jpg",
        "../../Utilities/textures/stainedglass.jpg",
        "../../Utilities/textures/gold-seamless-texture.jpg"],
      ∃ img : Image, stbi_load path = some img ∧
        (img.colorChannels = 3 ∨ img.colorChannels = 4)) :
    (LoadSceneTextures gl (SceneManager.new p) stbi_load glGen).2.2 =
      ⟨p, [⟨glGen 0, "wood"⟩, ⟨glGen 1, "Mug"⟩, ⟨glGen 2, "light"⟩, ⟨glGen 3, "glass"⟩,
          ⟨glGen 4, "gold"⟩],
        ((((TagMap.clear.assign "wood" 0).assign "Mug" 1).assign "light" 2).assign
          "glass" 3).assign "gold" 4,
        [], TagMap.clear⟩ := by
  obtain ⟨i1, h1, c1⟩ := himg "../../Utilities/textures/wood.jpg" (by simp)
  obtain ⟨i2, h2, c2⟩ := himg "../../Utilities/textures/greencup.png" (by simp)
  obtain ⟨i3, h3, c3⟩ := himg "../../Utilities/textures/light.jpg" (by simp)
  obtain ⟨i4, h4, c4⟩ := himg "../../Utilities/textures/stainedglass.jpg" (by simp)
  obtain ⟨i5, h5, c5⟩ := himg "../../Utilities/textures/gold-seamless-texture.jpg" (by simp)
  simp only [LoadSceneTextures, h1, h2, h3, h4, h5]
  rw [CreateGLTexture_ok _ _ i1 _ _ ?_ c1]
  · simp only []
    rw [CreateGLTexture_ok _ _ i2 _ _ ?_ c2]
    · simp only []
      rw [CreateGLTexture_ok _ _ i3 _ _ ?_ c3]
      · simp only []
        rw [CreateGLTexture_ok _ _ i4 _ _ ?_ c4]
        · simp only []
          rw [CreateGLTexture_ok _ _ i5 _ _ ?_ c5]
          · simp [SceneManager.new]
          · simp [SceneManager.new]
        · simp [SceneManager.new]
      · simp [SceneManager.new]
    · simp [SceneManager.new]
  · simp [SceneManager.new]

theorem FindMaterial_of_lookup (sm : SceneManager R) (tag : String) (m : OBJECT_MATERIAL R)
    (h : sm.m_materialLookup tag = some m) (out : OBJECT_MATERIAL R) :
    FindMaterial sm tag out = (true, m) := by
  simp [FindMaterial, h]

theorem PrepareScene_scene (gl : GLContext) (meshes : ShapeMeshes R)
    (sh0 : ShaderManager R) (stbi_load : String → Option Image) (glGen : Nat → Nat)
    (himg : ∀ path ∈ ["../../Utilities/textures/wood.jpg",
        "../../Utilities/textures/greencup.png", "../../Utilities/textures/light.jpg",
        "../../Utilities/textures/stainedglass.jpg",
        "../../Utilities/textures/gold-seamless-texture.jpg"],
      ∃ img : Image, stbi_load path = some img ∧
        (img.colorChannels = 3 ∨ img.colorChannels = 4)) :
    ∃ S0 : ShaderManager R,
      (PrepareScene gl meshes (SceneManager.new (some sh0)) stbi_load glGen).2.2.2 =
        ⟨some S0,
          [⟨glGen 0, "wood"⟩, ⟨glGen 1, "Mug"⟩, ⟨glGen 2, "light"⟩, ⟨glGen 3, "glass"⟩,
            ⟨glGen 4, "gold"⟩],
          ((((TagMap.clear.assign "wood" 0).assign "Mug" 1).assign "light" 2).assign
            "glass" 3).assign "gold" 4,
          (DefineObjectMaterials (SceneManager.new none : SceneManager R)).m_objectMaterials,
          (DefineObjectMaterials (SceneManager.new none : SceneManager R)).m_materialLookup⟩ := by
  have hload := LoadSceneTextures_new gl (some sh0) stbi_load glGen himg
  have hlights : ∃ S0 : ShaderManager R,
      (SetupSceneLights (SceneManager.new (some sh0) : SceneManager R)).m_pShaderManager
        = some S0 := ⟨_, rfl⟩
  obtain ⟨S0, hS0⟩ := hlights
  refine ⟨S0, ?_⟩
  rw [← hS0]
  simp only [PrepareScene, hload]
  rfl

theorem catalog_lookup (tag : String)
    (htag : tag ∈ ["gold", "cement", "wood", "tile", "glass", "clay", "ceramic"]) :
    (DefineObjectMaterials (SceneManager.new none : SceneManager R)).m_materialLookup tag
      = some (FindMaterial (DefineObjectMaterials (SceneManager.new none : SceneManager R))
          tag OBJECT_MATERIAL.uninitialized).2 := by
  simp only [List.mem_cons, List.mem_singleton, List.not_mem_nil, or_false] at htag
  rcases htag with h | h | h | h | h | h | h <;> subst h <;>
    simp [FindMaterial, DefineObjectMaterials, TagMap.assign, TagMap.clear]

/-- C13: after `PrepareScene` on a freshly constructed object with a shader manager
bound, when the five texture files decode with 3 or 4 channels (so that "wood", "Mug",
"light", "glass" and "gold" are registered, next to the seven catalog materials), one
`RenderScene` call is the execution of seven draw instructions, each as model-matrix
upload, then shading, then mesh draw: four instructions are shaded by a material the
catalog defines and a texture slot that is registered (wood/wood at 0, gold/gold at 4,
glass/light at 2, ceramic/Mug at 1) and three by a flat colour.  It adds seven draw
calls and 41 uniform writes: 7 to `model`, 7 to `bUseTexture`, 4 to each material
uniform and to `objectTexture`, 3 to `objectColor`.  The texture and material
registries after the call are those before it. -/
theorem RenderScene_seven_instructions (F : ScalarMath R) (gl : GLContext)
    (meshes : ShapeMeshes R) (sh0 : ShaderManager R) (stbi_load : String → Option Image)
    (glGen : Nat → Nat)
    (himg : ∀ path ∈ ["../../Utilities/textures/wood.jpg",
        "../../Utilities/textures/greencup.png", "../../Utilities/textures/light.jpg",
        "../../Utilities/textures/stainedglass.jpg",
        "../../Utilities/textures/gold-seamless-texture.jpg"],
      ∃ img : Image, stbi_load path = some img ∧
        (img.colorChannels = 3 ∨ img.colorChannels = 4)) :
    (PrepareScene gl meshes (SceneManager.new (some sh0)) stbi_load glGen).2.2.2.m_textures.map TEXTURE_INFO.tag = ["wood", "Mug", "light", "glass", "gold"] ∧
    (PrepareScene gl meshes (SceneManager.new (some sh0)) stbi_load glGen).2.2.2.m_objectMaterials.map OBJECT_MATERIAL.tag
      = ["gold", "cement", "wood", "tile", "glass", "clay", "ceramic"] ∧
    (RenderScene F (PrepareScene gl meshes (SceneManager.new (some sh0)) stbi_load glGen).2.2.1 (PrepareScene gl meshes (SceneManager.new (some sh0)) stbi_load glGen).2.2.2).2.m_textures = (PrepareScene gl meshes (SceneManager.new (some sh0)) stbi_load glGen).2.2.2.m_textures ∧
    (RenderScene F (PrepareScene gl meshes (SceneManager.new (some sh0)) stbi_load glGen).2.2.1 (PrepareScene gl meshes (SceneManager.new (some sh0)) stbi_load glGen).2.2.2).2.m_textureSlotLookup = (PrepareScene gl meshes (SceneManager.new (some sh0)) stbi_load glGen).2.2.2.m_textureSlotLookup ∧
    (RenderScene F (PrepareScene gl meshes (SceneManager.new (some sh0)) stbi_load glGen).2.2.1 (PrepareScene gl meshes (SceneManager.new (some sh0)) stbi_load glGen).2.2.2).2.m_objectMaterials = (PrepareScene gl meshes (SceneManager.new (some sh0)) stbi_load glGen).2.2.2.m_objectMaterials ∧
    (RenderScene F (PrepareScene gl meshes (SceneManager.new (some sh0)) stbi_load glGen).2.2.1 (PrepareScene gl meshes (SceneManager.new (some sh0)) stbi_load glGen).2.2.2).2.m_materialLookup = (PrepareScene gl meshes (SceneManager.new (some sh0)) stbi_load glGen).2.2.2.m_materialLookup ∧
    ∃ (S0 S7 : ShaderManager R) (wood gold glass ceramic : OBJECT_MATERIAL R),
      (PrepareScene gl meshes (SceneManager.new (some sh0)) stbi_load glGen).2.2.2.m_pShaderManager = some S0 ∧
      (RenderScene F (PrepareScene gl meshes (SceneManager.new (some sh0)) stbi_load glGen).2.2.1 (PrepareScene gl meshes (SceneManager.new (some sh0)) stbi_load glGen).2.2.2).2.m_pShaderManager = some S7 ∧
      (∀ out : OBJECT_MATERIAL R, FindMaterial (PrepareScene gl meshes (SceneManager.new (some sh0)) stbi_load glGen).2.2.2 "wood" out = (true, wood)) ∧
      (∀ out : OBJECT_MATERIAL R, FindMaterial (PrepareScene gl meshes (SceneManager.new (some sh0)) stbi_load glGen).2.2.2 "gold" out = (true, gold)) ∧
      (∀ out : OBJECT_MATERIAL R, FindMaterial (PrepareScene gl meshes (SceneManager.new (some sh0)) stbi_load glGen).2.2.2 "glass" out = (true, glass)) ∧
      (∀ out : OBJECT_MATERIAL R, FindMaterial (PrepareScene gl meshes (SceneManager.new (some sh0)) stbi_load glGen).2.2.2 "ceramic" out = (true, ceramic)) ∧
      FindTextureSlot (PrepareScene gl meshes (SceneManager.new (some sh0)) stbi_load glGen).2.2.2 "wood" = 0 ∧
      FindTextureSlot (PrepareScene gl meshes (SceneManager.new (some sh0)) stbi_load glGen).2.2.2 "gold" = 4 ∧
      FindTextureSlot (PrepareScene gl meshes (SceneManager.new (some sh0)) stbi_load glGen).2.2.2 "light" = 2 ∧
      FindTextureSlot (PrepareScene gl meshes (SceneManager.new (some sh0)) stbi_load glGen).2.2.2 "Mug" = 1 ∧
      ((RenderScene F (PrepareScene gl meshes (SceneManager.new (some sh0)) stbi_load glGen).2.2.1 (PrepareScene gl meshes (SceneManager.new (some sh0)) stbi_load glGen).2.2.2).1, S7) = Spec.execute (PrepareScene gl meshes (SceneManager.new (some sh0)) stbi_load glGen).2.2.1 S0 (Spec.renderSequence F wood gold glass ceramic 0 4 2 1) ∧
      (Spec.renderSequence F wood gold glass ceramic 0 4 2 1).length = 7 ∧
      ((Spec.renderSequence F wood gold glass ceramic 0 4 2 1).filter Spec.DrawInstruction.isTextured).length = 4 ∧
      ((Spec.renderSequence F wood gold glass ceramic 0 4 2 1).filter (fun i => !i.isTextured)).length = 3 ∧
      (RenderScene F (PrepareScene gl meshes (SceneManager.new (some sh0)) stbi_load glGen).2.2.1 (PrepareScene gl meshes (SceneManager.new (some sh0)) stbi_load glGen).2.2.2).1.drawCalls.length = (PrepareScene gl meshes (SceneManager.new (some sh0)) stbi_load glGen).2.2.1.drawCalls.length + 7 ∧
      (RenderScene F (PrepareScene gl meshes (SceneManager.new (some sh0)) stbi_load glGen).2.2.1 (PrepareScene gl meshes (SceneManager.new (some sh0)) stbi_load glGen).2.2.2).1.drawCalls.map DrawCall.mesh =
        [MeshKind.plane, MeshKind.box, MeshKind.box, MeshKind.cylinder, MeshKind.cone,
          MeshKind.cylinder, MeshKind.cylinder] ++ (PrepareScene gl meshes (SceneManager.new (some sh0)) stbi_load glGen).2.2.1.drawCalls.map DrawCall.mesh ∧
      S7.writes.length = S0.writes.length + 41 ∧
      S7.writeCount "model" = S0.writeCount "model" + 7 ∧
      S7.writeCount "bUseTexture" = S0.writeCount "bUseTexture" + 7 ∧
      S7.writeCount "material.ambientColor" = S0.writeCount "material.ambientColor" + 4 ∧
      S7.writeCount "material.ambientStrength" = S0.writeCount "material.ambientStrength" + 4 ∧
      S7.writeCount "material.diffuseColor" = S0.writeCount "material.diffuseColor" + 4 ∧
      S7.writeCount "material.specularColor" = S0.writeCount "material.specularColor" + 4 ∧
      S7.writeCount "material.shininess" = S0.writeCount "material.shininess" + 4 ∧
      S7.writeCount "objectTexture" = S0.writeCount "objectTexture" + 4 ∧
      S7.writeCount "objectColor" = S0.writeCount "objectColor" + 3 := by
  obtain ⟨S0, hscene⟩ := PrepareScene_scene gl meshes sh0 stbi_load glGen himg
  have hne : (DefineObjectMaterials (SceneManager.new none : SceneManager R)).m_objectMaterials
      ≠ [] := by
    simp [DefineObjectMaterials]
  have hw := catalog_lookup (R := R) "wood" (by simp)
  have hg := catalog_lookup (R := R) "gold" (by simp)
  have hgl := catalog_lookup (R := R) "glass" (by simp)
  have hc := catalog_lookup (R := R) "ceramic" (by simp)
  have hs1 : (((((TagMap.clear.assign "wood" 0).assign "Mug" 1).assign "light" 2).assign
      "glass" 3).assign "gold" 4 : TagMap Int) "wood" = some 0 := by
    simp [TagMap.assign]
  have hs2 : (((((TagMap.clear.assign "wood" 0).assign "Mug" 1).assign "light" 2).assign
      "glass" 3).assign "gold" 4 : TagMap Int) "gold" = some 4 := by
    simp [TagMap.assign]
  have hs3 : (((((TagMap.clear.assign "wood" 0).assign "Mug" 1).assign "light" 2).assign
      "glass" 3).assign "gold" 4 : TagMap Int) "light" = some 2 := by
    simp [TagMap.assign]
  have hs4 : (((((TagMap.clear.assign "wood" 0).assign "Mug" 1).assign "light" 2).assign
      "glass" 3).assign "gold" 4 : TagMap Int) "Mug" = some 1 := by
    simp [TagMap.assign]
  generalize (PrepareScene gl meshes (SceneManager.new (some sh0)) stbi_load glGen).2.2.1 = meshes1
  have hexec := RenderScene_executes F meshes1 S0
    [⟨glGen 0, "wood"⟩, ⟨glGen 1, "Mug"⟩, ⟨glGen 2, "light"⟩, ⟨glGen 3, "glass"⟩,
      ⟨glGen 4, "gold"⟩] _ _ _ _ _ _ _ 0 4 2 1 hne hw hg hgl hc hs1 hs2 hs3 hs4
    (by decide) (by decide) (by decide) (by decide)
  rw [hscene, hexec]
  refine ⟨rfl, ?_, rfl, rfl, rfl, rfl, S0, _, _, _, _, _, rfl, rfl, ?_, ?_, ?_, ?_, ?_, ?_, ?_, ?_,
    rfl, rfl, rfl, rfl, ?_, ?_, ?_, ?_, ?_, ?_, ?_, ?_, ?_, ?_, ?_, ?_⟩
  · simp [DefineObjectMaterials]
  · exact fun out => FindMaterial_of_lookup _ _ _ hw out
  · exact fun out => FindMaterial_of_lookup _ _ _ hg out
  · exact fun out => FindMaterial_of_lookup _ _ _ hgl out
  · exact fun out => FindMaterial_of_lookup _ _ _ hc out
  · simp only [FindTextureSlot, hs1]
  · simp only [FindTextureSlot, hs2]
  · simp only [FindTextureSlot, hs3]
  · simp only [FindTextureSlot, hs4]
  · simp [Spec.execute, Spec.renderSequence, ShapeMeshes.draw]
  · simp [Spec.execute, Spec.renderSequence, ShapeMeshes.draw]
  · simp [Spec.execute, Spec.renderSequence, Spec.shaderAfter, Spec.shadingWrites]
  · simp [Spec.execute, Spec.renderSequence, Spec.shaderAfter, Spec.shadingWrites,
      ShaderManager.writeCount, List.filter_cons]
  · simp [Spec.execute, Spec.renderSequence, Spec.shaderAfter, Spec.shadingWrites,
      ShaderManager.writeCount, List.filter_cons]
  · simp [Spec.execute, Spec.renderSequence, Spec.shaderAfter, Spec.shadingWrites,
      ShaderManager.writeCount, List.filter_cons]
  · simp [Spec.execute, Spec.renderSequence, Spec.shaderAfter, Spec.shadingWrites,
      ShaderManager.writeCount, List.filter_cons]
  · simp [Spec.execute, Spec.renderSequence, Spec.shaderAfter, Spec.shadingWrites,
      ShaderManager.writeCount, List.filter_cons]
  · simp [Spec.execute, Spec.renderSequence, Spec.shaderAfter, Spec.shadingWrites,
      ShaderManager.writeCount, List.filter_cons]
  · simp [Spec.execute, Spec.renderSequence, Spec.shaderAfter, Spec.shadingWrites,
      ShaderManager.writeCount, List.filter_cons]
  · simp [Spec.execute, Spec.renderSequence, Spec.shaderAfter, Spec.shadingWrites,
      ShaderManager.writeCount, List.filter_cons]
  · simp [Spec.execute, Spec.renderSequence, Spec.shaderAfter, Spec.shadingWrites,
      ShaderManager.writeCount, List.filter_cons]

/-- Witness for C13: the scene over the real numbers, starting from an empty OpenGL
context, mesh provider and shader manager; the cup texture decodes with 4 channels,
the other four with 3, and OpenGL hands out the names 1 to 5. -/
theorem RenderScene_seven_instructions_witness :
    (RenderScene (ScalarMath.mk Real.cos Real.sin (fun x => (Real.sqrt x)⁻¹) Real.pi) (PrepareScene (R := ℝ) ⟨[], 0, []⟩ ⟨[], []⟩ (SceneManager.new (some ⟨[]⟩))
        (fun path => if path = "../../Utilities/textures/greencup.png"
          then some ⟨512, 512, 4⟩ else some ⟨1024, 1024, 3⟩) (fun k => k + 1)).2.2.1 (PrepareScene (R := ℝ) ⟨[], 0, []⟩ ⟨[], []⟩ (SceneManager.new (some ⟨[]⟩))
        (fun path => if path = "../../Utilities/textures/greencup.png"
          then some ⟨512, 512, 4⟩ else some ⟨1024, 1024, 3⟩) (fun k => k + 1)).2.2.2).1.drawCalls.length
      = (PrepareScene (R := ℝ) ⟨[], 0, []⟩ ⟨[], []⟩ (SceneManager.new (some ⟨[]⟩))
        (fun path => if path = "../../Utilities/textures/greencup.png"
          then some ⟨512, 512, 4⟩ else some ⟨1024, 1024, 3⟩) (fun k => k + 1)).2.2.1.drawCalls.length + 7 ∧
    (RenderScene (ScalarMath.mk Real.cos Real.sin (fun x => (Real.sqrt x)⁻¹) Real.pi) (PrepareScene (R := ℝ) ⟨[], 0, []⟩ ⟨[], []⟩ (SceneManager.new (some ⟨[]⟩))
        (fun path => if path = "../../Utilities/textures/greencup.png"
          then some ⟨512, 512, 4⟩ else some ⟨1024, 1024, 3⟩) (fun k => k + 1)).2.2.1 (PrepareScene (R := ℝ) ⟨[], 0, []⟩ ⟨[], []⟩ (SceneManager.new (some ⟨[]⟩))
        (fun path => if path = "../../Utilities/textures/greencup.png"
          then some ⟨512, 512, 4⟩ else some ⟨1024, 1024, 3⟩) (fun k => k + 1)).2.2.2).2.m_textures
      = (PrepareScene (R := ℝ) ⟨[], 0, []⟩ ⟨[], []⟩ (SceneManager.new (some ⟨[]⟩))
        (fun path => if path = "../../Utilities/textures/greencup.png"
          then some ⟨512, 512, 4⟩ else some ⟨1024, 1024, 3⟩) (fun k => k + 1)).2.2.2.m_textures := by
  obtain ⟨-, -, htex, -, -, -, S0, S7, wood, gold, glass, ceramic, -, -, -, -, -, -, -, -, -, -,
    -, -, -, -, hdraws, -⟩ := RenderScene_seven_instructions (ScalarMath.mk Real.cos Real.sin (fun x => (Real.sqrt x)⁻¹) Real.pi)
    ⟨[], 0, []⟩ ⟨[], []⟩ ⟨[]⟩
    (fun path => if path = "../../Utilities/textures/greencup.png"
          then some ⟨512, 512, 4⟩ else some ⟨1024, 1024, 3⟩) (fun k => k + 1)
    (by
      intro path hp
      simp only [List.mem_cons, List.mem_singleton, List.not_mem_nil, or_false] at hp
      rcases hp with h | h | h | h | h
      · exact ⟨⟨1024, 1024, 3⟩, by rw [h]; decide, by decide⟩
      · exact ⟨⟨512, 512, 4⟩, by rw [h]; decide, by decide⟩
      · exact ⟨⟨1024, 1024, 3⟩, by rw [h]; decide, by decide⟩
      · exact ⟨⟨1024, 1024, 3⟩, by rw [h]; decide, by decide⟩
      · exact ⟨⟨1024, 1024, 3⟩, by rw [h]; decide, by decide⟩)
  exact ⟨hdraws, htex⟩

end RenderSequence

end SceneManagerModel
